import Mathlib

/-!
# Block-map extraction pipeline of `getmaps.c`

Shallow embedding of `lfs_detect_minutiae_V2_getmaps` and `get_maps`
(src/mindtct/src/lib/mindtct/getmaps.c).

* The collaborators that `getmaps.c` calls but does not define
  (`get_max_padding_V2`, `init_dir2rad`, `init_dftwaves`, `init_rotgrids`,
  `pad_uchar_image`, `malloc`, `bits_8to6`, `gen_image_maps`, `binarize_V2`,
  `gray2bin`, `gen_quality_map`) are the fields of `Collab`: arbitrary
  functions of the values they are handed.  The table types `DIR2RAD`,
  `DFTWAVES`, `ROTGRIDS` (declared in lfs.h) are the type parameters `D W R`.
* A pointer is an address together with the object it points to.  Addresses
  are handed out by a counter, so every acquisition has its own address.
* Every collaborator call, acquisition and release is appended to a trace.
  A collaborator that returns status 0 acquires its result; one that returns
  a non-zero status acquires nothing.
* C `int` is `Int`.  The one piece of `int` arithmetic in the file, the size
  `iw*ih` handed to `malloc` and `memcpy`, is computed in 32-bit two's
  complement (`int_mul`) and converted to the 64-bit `size_t` (`size_t_of_int`).
-/

namespace Getmaps

/-! ## Data model -/

/-- Origin mode handed to `init_rotgrids` (the lfs.h constants
`RELATIVE2CENTER` and `RELATIVE2ORIGIN`). -/
inductive Relative2
  | RELATIVE2CENTER
  | RELATIVE2ORIGIN
  deriving DecidableEq, Repr

/-- The fields of `LFSPARMS` that `getmaps.c` reads.  The double
`start_dir_angle` is only forwarded, so it is kept as its bit pattern; the
fields that only the collaborators read are in `others`. -/
structure LFSPARMS where
  pad_value : Int
  windowsize : Int
  windowoffset : Int
  num_directions : Int
  start_dir_angle : Nat
  num_dft_waves : Int
  dirbin_grid_w : Int
  dirbin_grid_h : Int
  others : List Int
  deriving DecidableEq, Repr

/-- A pointer: the address and the object stored there. -/
structure Ptr (α : Type) where
  addr : Nat
  obj : α
  deriving DecidableEq, Repr

/-- An image produced by a collaborator: samples, width and height. -/
structure Image where
  data : List Nat
  w : Int
  h : Int
  deriving DecidableEq, Repr

/-- The four block maps and the block-grid dimensions produced by
`gen_image_maps`. -/
structure Maps where
  direction_map : List Int
  low_contrast_map : List Int
  low_flow_map : List Int
  high_curve_map : List Int
  mw : Int
  mh : Int
  deriving DecidableEq, Repr

/-- The collaborators of `getmaps.c`, as functions of their arguments.  A
fallible collaborator yields its status together with the object it builds
when the status is 0.  `init_dftwaves` has the global `dft_coefs` built in. -/
structure Collab (D W R : Type) where
  get_max_padding_V2 : Int → Int → Int → Int → Int
  init_dir2rad : Int → Int × D
  init_dftwaves : Int → Int → Int × W
  init_rotgrids : Int → Int → Int → Nat → Int → Int → Int → Relative2 → Int × R
  pad_uchar_image : List Nat → Int → Int → Int → Int → Int × Image
  malloc : Nat → Bool
  bits_8to6 : List Nat → Int → Int → List Nat
  gen_image_maps : List Nat → Int → Int → D → W → R → LFSPARMS → Int × Maps
  binarize_V2 : List Nat → Int → Int → List Int → Int → Int → R → LFSPARMS → Int × Image
  gray2bin : Int → Int → Int → List Nat → Int → Int → List Nat
  gen_quality_map : List Int → List Int → List Int → List Int → Int → Int → Int × List Int

/-! ## Trace -/

/-- A call of a status-returning collaborator, with the scalar arguments, the
addresses of the pointer arguments and the samples of image arguments. -/
inductive Call
  | init_dir2rad (ndirs : Int)
  | init_dftwaves (nwaves blocksize : Int)
  | init_rotgrids (iw ih ipad : Int) (start_dir_angle : Nat)
      (ndirs grid_w grid_h : Int) (relative2 : Relative2)
  | pad_uchar_image (idata : List Nat) (iw ih pad pad_value : Int)
  | gen_image_maps (pdata : Nat) (px : List Nat) (pw ph : Int)
      (dir2rad dftwaves dftgrids : Nat)
  | binarize_V2 (pdata : Nat) (px : List Nat) (pw ph : Int)
      (direction_map : Nat) (mw mh : Int) (dirbingrids : Nat)
  | gen_quality_map (direction_map low_contrast_map low_flow_map high_curve_map : Nat)
      (mw mh : Int)
  deriving DecidableEq, Repr

/-- The deallocator a resource belongs to: `free_dir2rad`, `free_dftwaves`,
`free_rotgrids`, or plain `free`. -/
inductive Kind
  | dir2rad
  | dftwaves
  | rotgrids
  | mem
  deriving DecidableEq, Repr

/-- What the two functions do, in order. -/
inductive Event
  | call (c : Call) (ret : Int)
  | malloc (size : Nat) (ok : Bool)
  | memcpy (dst : Nat) (n : Nat)
  | bits_8to6 (p : Nat) (w h : Int)
  | gray2bin (thresh less_pix greater_pix : Int) (p : Nat) (w h : Int)
  | acquire (k : Kind) (p : Nat)
  | release (k : Kind) (p : Nat)
  | fprintf
  deriving DecidableEq, Repr

/-- The allocator counter and the trace so far. -/
structure State where
  next : Nat
  trace : List Event
  deriving DecidableEq, Repr

/-- Append one event. -/
def State.emit (s : State) (e : Event) : State :=
  { s with trace := s.trace ++ [e] }

/-- Acquire a resource at the next address. -/
def State.acquire (s : State) (k : Kind) : State :=
  { next := s.next + 1, trace := s.trace ++ [Event.acquire k s.next] }

/-- Result of a collaborator call: the status, the pointer(s) it stores when
the status is 0 (the callers never read them otherwise) and the state after
it. -/
structure Res (α : Type) where
  ret : Int
  val : α
  st : State

/-! ## Collaborator calls -/

/-- Call `init_dir2rad(&dir2rad, ndirs)`. -/
def init_dir2rad {D W R : Type} (C : Collab D W R) (ndirs : Int) (s : State) : Res (Ptr D) :=
  let r := C.init_dir2rad ndirs
  let s1 := s.emit (Event.call (Call.init_dir2rad ndirs) r.1)
  { ret := r.1
    val := ⟨s1.next, r.2⟩
    st := if r.1 = 0 then s1.acquire Kind.dir2rad else s1 }

/-- Call `init_dftwaves(&dftwaves, dft_coefs, nwaves, blocksize)`. -/
def init_dftwaves {D W R : Type} (C : Collab D W R) (nwaves blocksize : Int) (s : State) :
    Res (Ptr W) :=
  let r := C.init_dftwaves nwaves blocksize
  let s1 := s.emit (Event.call (Call.init_dftwaves nwaves blocksize) r.1)
  { ret := r.1
    val := ⟨s1.next, r.2⟩
    st := if r.1 = 0 then s1.acquire Kind.dftwaves else s1 }

/-- Call `init_rotgrids(&rotgrids, iw, ih, ipad, start_dir_angle, ndirs,
grid_w, grid_h, relative2)`. -/
def init_rotgrids {D W R : Type} (C : Collab D W R) (iw ih ipad : Int) (start_dir_angle : Nat)
    (ndirs grid_w grid_h : Int) (relative2 : Relative2) (s : State) : Res (Ptr R) :=
  let r := C.init_rotgrids iw ih ipad start_dir_angle ndirs grid_w grid_h relative2
  let s1 := s.emit
    (Event.call (Call.init_rotgrids iw ih ipad start_dir_angle ndirs grid_w grid_h relative2) r.1)
  { ret := r.1
    val := ⟨s1.next, r.2⟩
    st := if r.1 = 0 then s1.acquire Kind.rotgrids else s1 }

/-- Call `pad_uchar_image(&pdata, &pw, &ph, idata, iw, ih, pad, pad_value)`. -/
def pad_uchar_image {D W R : Type} (C : Collab D W R) (idata : List Nat)
    (iw ih pad pad_value : Int) (s : State) : Res (Ptr Image) :=
  let r := C.pad_uchar_image idata iw ih pad pad_value
  let s1 := s.emit (Event.call (Call.pad_uchar_image idata iw ih pad pad_value) r.1)
  { ret := r.1
    val := ⟨s1.next, r.2⟩
    st := if r.1 = 0 then s1.acquire Kind.mem else s1 }

/-- The product of two C `int`s: the low 32 bits of the exact product, read
in two's complement (what the multiplication yields when the exact product
does not fit; C leaves that case undefined). -/
def int_mul (a b : Int) : Int :=
  (a * b + 2147483648) % 4294967296 - 2147483648

/-- Conversion of a C `int` to the 64-bit unsigned `size_t`. -/
def size_t_of_int (x : Int) : Nat :=
  (x % 18446744073709551616).toNat

/-- Call `malloc(size)`, `size` a `size_t`: `none` is the null pointer. -/
def malloc {D W R : Type} (C : Collab D W R) (size : Nat) (s : State) : Option Nat × State :=
  let s1 := s.emit (Event.malloc size (C.malloc size))
  (if C.malloc size then some s1.next else none,
   if C.malloc size then s1.acquire Kind.mem else s1)

/-- Call `memcpy(dst, src, n)`, `n` a `size_t`, into a fresh buffer: its first
`n` samples are those of `src`. -/
def memcpy (dst : Nat) (src : List Nat) (n : Nat) (s : State) : Ptr (List Nat) × State :=
  (⟨dst, src.take n⟩, s.emit (Event.memcpy dst n))

/-- Call `bits_8to6(pdata, pw, ph)`: rescales the buffer in place. -/
def bits_8to6 {D W R : Type} (C : Collab D W R) (pdata : Ptr (List Nat)) (pw ph : Int)
    (s : State) : Ptr (List Nat) × State :=
  (⟨pdata.addr, C.bits_8to6 pdata.obj pw ph⟩, s.emit (Event.bits_8to6 pdata.addr pw ph))

/-- The four map pointers and the block-grid dimensions stored by
`gen_image_maps`. -/
structure MapPtrs where
  direction_map : Ptr (List Int)
  low_contrast_map : Ptr (List Int)
  low_flow_map : Ptr (List Int)
  high_curve_map : Ptr (List Int)
  mw : Int
  mh : Int

/-- Call `gen_image_maps(&direction_map, &low_contrast_map, &low_flow_map,
&high_curve_map, &mw, &mh, pdata, pw, ph, dir2rad, dftwaves, dftgrids,
lfsparms)`. -/
def gen_image_maps {D W R : Type} (C : Collab D W R) (pdata : Ptr (List Nat)) (pw ph : Int)
    (dir2rad : Ptr D) (dftwaves : Ptr W) (dftgrids : Ptr R) (lfsparms : LFSPARMS)
    (s : State) : Res MapPtrs :=
  let r := C.gen_image_maps pdata.obj pw ph dir2rad.obj dftwaves.obj dftgrids.obj lfsparms
  let s1 := s.emit (Event.call
    (Call.gen_image_maps pdata.addr pdata.obj pw ph dir2rad.addr dftwaves.addr dftgrids.addr) r.1)
  { ret := r.1
    val :=
      { direction_map := ⟨s1.next, r.2.direction_map⟩
        low_contrast_map := ⟨s1.next + 1, r.2.low_contrast_map⟩
        low_flow_map := ⟨s1.next + 2, r.2.low_flow_map⟩
        high_curve_map := ⟨s1.next + 3, r.2.high_curve_map⟩
        mw := r.2.mw
        mh := r.2.mh }
    st :=
      if r.1 = 0 then
        (((s1.acquire Kind.mem).acquire Kind.mem).acquire Kind.mem).acquire Kind.mem
      else s1 }

/-- Call `binarize_V2(&bdata, &bw, &bh, pdata, pw, ph, direction_map, mw, mh,
dirbingrids, lfsparms)`. -/
def binarize_V2 {D W R : Type} (C : Collab D W R) (pdata : Ptr (List Nat)) (pw ph : Int)
    (direction_map : Ptr (List Int)) (mw mh : Int) (dirbingrids : Ptr R) (lfsparms : LFSPARMS)
    (s : State) : Res (Ptr Image) :=
  let r := C.binarize_V2 pdata.obj pw ph direction_map.obj mw mh dirbingrids.obj lfsparms
  let s1 := s.emit (Event.call
    (Call.binarize_V2 pdata.addr pdata.obj pw ph direction_map.addr mw mh dirbingrids.addr) r.1)
  { ret := r.1
    val := ⟨s1.next, r.2⟩
    st := if r.1 = 0 then s1.acquire Kind.mem else s1 }

/-- Call `gray2bin(thresh, less_pix, greater_pix, bdata, iw, ih)`: rewrites
the buffer in place. -/
def gray2bin {D W R : Type} (C : Collab D W R) (thresh less_pix greater_pix : Int)
    (bdata : Ptr (List Nat)) (iw ih : Int) (s : State) : Ptr (List Nat) × State :=
  (⟨bdata.addr, C.gray2bin thresh less_pix greater_pix bdata.obj iw ih⟩,
   s.emit (Event.gray2bin thresh less_pix greater_pix bdata.addr iw ih))

/-- Call `gen_quality_map(&quality_map, direction_map, low_contrast_map,
low_flow_map, high_curve_map, map_w, map_h)`. -/
def gen_quality_map {D W R : Type} (C : Collab D W R)
    (direction_map low_contrast_map low_flow_map high_curve_map : Ptr (List Int))
    (map_w map_h : Int) (s : State) : Res (Ptr (List Int)) :=
  let r := C.gen_quality_map direction_map.obj low_contrast_map.obj low_flow_map.obj
    high_curve_map.obj map_w map_h
  let s1 := s.emit (Event.call
    (Call.gen_quality_map direction_map.addr low_contrast_map.addr low_flow_map.addr
      high_curve_map.addr map_w map_h) r.1)
  { ret := r.1
    val := ⟨s1.next, r.2⟩
    st := if r.1 = 0 then s1.acquire Kind.mem else s1 }

/-- Call `free_dir2rad(dir2rad)`. -/
def State.free_dir2rad {D : Type} (s : State) (dir2rad : Ptr D) : State :=
  s.emit (Event.release Kind.dir2rad dir2rad.addr)

/-- Call `free_dftwaves(dftwaves)`. -/
def State.free_dftwaves {W : Type} (s : State) (dftwaves : Ptr W) : State :=
  s.emit (Event.release Kind.dftwaves dftwaves.addr)

/-- Call `free_rotgrids(rotgrids)`. -/
def State.free_rotgrids {R : Type} (s : State) (rotgrids : Ptr R) : State :=
  s.emit (Event.release Kind.rotgrids rotgrids.addr)

/-- Call `free(p)`. -/
def State.free {α : Type} (s : State) (p : Ptr α) : State :=
  s.emit (Event.release Kind.mem p.addr)

/-! ## `lfs_detect_minutiae_V2_getmaps` -/

/-- The nine output slots of `lfs_detect_minutiae_V2_getmaps`. -/
structure Slots where
  odmap : Ptr (List Int)
  olcmap : Ptr (List Int)
  olfmap : Ptr (List Int)
  ohcmap : Ptr (List Int)
  omw : Int
  omh : Int
  obdata : Ptr (List Nat)
  obw : Int
  obh : Int
  deriving DecidableEq, Repr

/-- What `lfs_detect_minutiae_V2_getmaps` leaves behind: the returned status,
the output slots and the state. -/
structure Out where
  ret : Int
  slots : Slots
  st : State
  deriving DecidableEq, Repr

/-- Lines 86-170 of getmaps.c: everything after the working buffer
`pdata`, `pw`, `ph` has been set up on either branch of `if(maxpad > 0)`. -/
def lfs_detect_minutiae_V2_getmaps_maps {D W R : Type} (C : Collab D W R) (o : Slots)
    (iw ih : Int) (lfsparms : LFSPARMS) (binarize : Int) (maxpad : Int)
    (dir2rad : Ptr D) (dftwaves : Ptr W) (dftgrids : Ptr R)
    (pdata0 : Ptr (List Nat)) (pw ph : Int) (s : State) : Out :=
  let b := bits_8to6 C pdata0 pw ph s
  let pdata := b.1
  let g := gen_image_maps C pdata pw ph dir2rad dftwaves dftgrids lfsparms b.2
  if g.ret ≠ 0 then
    ⟨g.ret, o,
      (((g.st.free_dir2rad dir2rad).free_dftwaves dftwaves).free_rotgrids dftgrids).free pdata⟩
  else
    let direction_map := g.val.direction_map
    let low_contrast_map := g.val.low_contrast_map
    let low_flow_map := g.val.low_flow_map
    let high_curve_map := g.val.high_curve_map
    let mw := g.val.mw
    let mh := g.val.mh
    let s1 := ((g.st.free_dir2rad dir2rad).free_dftwaves dftwaves).free_rotgrids dftgrids
    let o1 : Slots :=
      { o with odmap := direction_map, olcmap := low_contrast_map, olfmap := low_flow_map,
               ohcmap := high_curve_map, omw := mw, omh := mh }
    if binarize = 0 then
      ⟨0, o1, s1.free pdata⟩
    else
      let d := init_rotgrids C iw ih maxpad lfsparms.start_dir_angle lfsparms.num_directions
        lfsparms.dirbin_grid_w lfsparms.dirbin_grid_h Relative2.RELATIVE2CENTER s1
      if d.ret ≠ 0 then
        ⟨d.ret, o1,
          ((((d.st.free pdata).free direction_map).free low_contrast_map).free
            low_flow_map).free high_curve_map⟩
      else
        let dirbingrids := d.val
        let z := binarize_V2 C pdata pw ph direction_map mw mh dirbingrids lfsparms d.st
        if z.ret ≠ 0 then
          ⟨z.ret, o1,
            (((((z.st.free pdata).free direction_map).free low_contrast_map).free
              low_flow_map).free high_curve_map).free_rotgrids dirbingrids⟩
        else
          let bw := z.val.obj.w
          let bh := z.val.obj.h
          let s2 := (z.st.free pdata).free_rotgrids dirbingrids
          let y := gray2bin C 1 1 0 ⟨z.val.addr, z.val.obj.data⟩ iw ih s2
          ⟨0, { o1 with obdata := y.1, obw := bw, obh := bh }, y.2⟩

/-- The function `lfs_detect_minutiae_V2_getmaps` (getmaps.c lines 6-171). -/
def lfs_detect_minutiae_V2_getmaps {D W R : Type} (C : Collab D W R) (o : Slots)
    (idata : List Nat) (iw ih : Int) (lfsparms : LFSPARMS) (binarize : Int) (s : State) : Out :=
  let maxpad := C.get_max_padding_V2 lfsparms.windowsize lfsparms.windowoffset
    lfsparms.dirbin_grid_w lfsparms.dirbin_grid_h
  let r1 := init_dir2rad C lfsparms.num_directions s
  if r1.ret ≠ 0 then
    ⟨r1.ret, o, r1.st⟩
  else
    let dir2rad := r1.val
    let r2 := init_dftwaves C lfsparms.num_dft_waves lfsparms.windowsize r1.st
    if r2.ret ≠ 0 then
      ⟨r2.ret, o, r2.st.free_dir2rad dir2rad⟩
    else
      let dftwaves := r2.val
      let r3 := init_rotgrids C iw ih maxpad lfsparms.start_dir_angle lfsparms.num_directions
        lfsparms.windowsize lfsparms.windowsize Relative2.RELATIVE2ORIGIN r2.st
      if r3.ret ≠ 0 then
        ⟨r3.ret, o, (r3.st.free_dir2rad dir2rad).free_dftwaves dftwaves⟩
      else
        let dftgrids := r3.val
        if maxpad > 0 then
          let p := pad_uchar_image C idata iw ih maxpad lfsparms.pad_value r3.st
          if p.ret ≠ 0 then
            ⟨p.ret, o,
              ((p.st.free_dir2rad dir2rad).free_dftwaves dftwaves).free_rotgrids dftgrids⟩
          else
            lfs_detect_minutiae_V2_getmaps_maps C o iw ih lfsparms binarize maxpad
              dir2rad dftwaves dftgrids ⟨p.val.addr, p.val.obj.data⟩ p.val.obj.w p.val.obj.h p.st
        else
          let m := malloc C (size_t_of_int (int_mul iw ih)) r3.st
          match m.1 with
          | none =>
            ⟨-580, o,
              ((((m.2.free_dir2rad dir2rad).free_dftwaves dftwaves).free_rotgrids dftgrids).emit
                Event.fprintf)⟩
          | some a =>
            let c := memcpy a idata (size_t_of_int (int_mul iw ih)) m.2
            lfs_detect_minutiae_V2_getmaps_maps C o iw ih lfsparms binarize maxpad
              dir2rad dftwaves dftgrids c.1 iw ih c.2

/-! ## `get_maps` -/

/-- The ten output slots of `get_maps`. -/
structure Outputs where
  oquality_map : Ptr (List Int)
  odirection_map : Ptr (List Int)
  olow_contrast_map : Ptr (List Int)
  olow_flow_map : Ptr (List Int)
  ohigh_curve_map : Ptr (List Int)
  omap_w : Int
  omap_h : Int
  obdata : Ptr (List Nat)
  obw : Int
  obh : Int
  deriving DecidableEq, Repr

/-- What `get_maps` leaves behind: the returned status, the caller's output
slots and the state. -/
structure TopOut where
  ret : Int
  outs : Outputs
  st : State
  deriving DecidableEq, Repr

/-- The function `get_maps` (getmaps.c lines 173-229).  `locals` holds the
indeterminate initial values of the locals `direction_map`,
`low_contrast_map`, `low_flow_map`, `high_curve_map`, `map_w`, `map_h`,
`bdata`, `bw`, `bh`, whose addresses are handed to
`lfs_detect_minutiae_V2_getmaps`.  `ppmm` (a double) is never used. -/
def get_maps {D W R : Type} (C : Collab D W R) (o : Outputs) (locals : Slots)
    (idata : List Nat) (iw ih id : Int) (ppmm : Nat) (lfsparms : LFSPARMS) (binarize : Int)
    (s : State) : TopOut :=
  if id ≠ 8 then
    ⟨-2, o, (s.emit Event.fprintf).emit Event.fprintf⟩
  else
    let r := lfs_detect_minutiae_V2_getmaps C locals idata iw ih lfsparms binarize s
    if r.ret ≠ 0 then
      ⟨r.ret, o, r.st⟩
    else
      let direction_map := r.slots.odmap
      let low_contrast_map := r.slots.olcmap
      let low_flow_map := r.slots.olfmap
      let high_curve_map := r.slots.ohcmap
      let map_w := r.slots.omw
      let map_h := r.slots.omh
      let bdata := r.slots.obdata
      let bw := r.slots.obw
      let bh := r.slots.obh
      let q := gen_quality_map C direction_map low_contrast_map low_flow_map high_curve_map
        map_w map_h r.st
      if q.ret ≠ 0 then
        ⟨q.ret, o,
          (((q.st.free direction_map).free low_contrast_map).free low_flow_map).free
            high_curve_map⟩
      else
        let quality_map := q.val
        ⟨0,
          { oquality_map := quality_map, odirection_map := direction_map,
            olow_contrast_map := low_contrast_map, olow_flow_map := low_flow_map,
            ohigh_curve_map := high_curve_map, omap_w := map_w, omap_h := map_h,
            obdata := bdata, obw := bw, obh := bh },
          q.st⟩

/-! ## Data flow

What each collaborator is handed and yields along the pipeline, as the spec
describes the stages (sections 4.1-4.5 and 6). -/

/-- The margin `maxpad` of lines 28-29. -/
def maxpadOf {D W R : Type} (C : Collab D W R) (lfsparms : LFSPARMS) : Int :=
  C.get_max_padding_V2 lfsparms.windowsize lfsparms.windowoffset lfsparms.dirbin_grid_w
    lfsparms.dirbin_grid_h

/-- Status and table of the angle-table build. -/
def dir2radOf {D W R : Type} (C : Collab D W R) (lfsparms : LFSPARMS) : Int × D :=
  C.init_dir2rad lfsparms.num_directions

/-- Status and table of the wave-table build. -/
def dftwavesOf {D W R : Type} (C : Collab D W R) (lfsparms : LFSPARMS) : Int × W :=
  C.init_dftwaves lfsparms.num_dft_waves lfsparms.windowsize

/-- Status and table of the map-generation grid-offset build. -/
def dftgridsOf {D W R : Type} (C : Collab D W R) (iw ih : Int) (lfsparms : LFSPARMS) : Int × R :=
  C.init_rotgrids iw ih (maxpadOf C lfsparms) lfsparms.start_dir_angle lfsparms.num_directions
    lfsparms.windowsize lfsparms.windowsize Relative2.RELATIVE2ORIGIN

/-- Status and image of padding the input by the margin. -/
def paddedOf {D W R : Type} (C : Collab D W R) (idata : List Nat) (iw ih : Int)
    (lfsparms : LFSPARMS) : Int × Image :=
  C.pad_uchar_image idata iw ih (maxpadOf C lfsparms) lfsparms.pad_value

/-- The working buffer: the padded image when the margin is positive,
otherwise the samples `memcpy` copied, as many as the size the code computes,
with `pw = iw`, `ph = ih`. -/
def workingBuffer {D W R : Type} (C : Collab D W R) (idata : List Nat) (iw ih : Int)
    (lfsparms : LFSPARMS) : Image :=
  if maxpadOf C lfsparms > 0 then (paddedOf C idata iw ih lfsparms).2
  else ⟨idata.take (size_t_of_int (int_mul iw ih)), iw, ih⟩

/-- The working buffer rescaled. -/
def rescaledBuffer {D W R : Type} (C : Collab D W R) (idata : List Nat) (iw ih : Int)
    (lfsparms : LFSPARMS) : List Nat :=
  C.bits_8to6 (workingBuffer C idata iw ih lfsparms).data (workingBuffer C idata iw ih lfsparms).w
    (workingBuffer C idata iw ih lfsparms).h

/-- Status and maps of map generation. -/
def mapsOf {D W R : Type} (C : Collab D W R) (idata : List Nat) (iw ih : Int)
    (lfsparms : LFSPARMS) : Int × Maps :=
  C.gen_image_maps (rescaledBuffer C idata iw ih lfsparms)
    (workingBuffer C idata iw ih lfsparms).w (workingBuffer C idata iw ih lfsparms).h
    (dir2radOf C lfsparms).2 (dftwavesOf C lfsparms).2 (dftgridsOf C iw ih lfsparms).2 lfsparms

/-- Status and table of the binarization grid-offset build. -/
def dirbingridsOf {D W R : Type} (C : Collab D W R) (iw ih : Int) (lfsparms : LFSPARMS) :
    Int × R :=
  C.init_rotgrids iw ih (maxpadOf C lfsparms) lfsparms.start_dir_angle lfsparms.num_directions
    lfsparms.dirbin_grid_w lfsparms.dirbin_grid_h Relative2.RELATIVE2CENTER

/-- Status and image of binarization. -/
def binarizedOf {D W R : Type} (C : Collab D W R) (idata : List Nat) (iw ih : Int)
    (lfsparms : LFSPARMS) : Int × Image :=
  C.binarize_V2 (rescaledBuffer C idata iw ih lfsparms)
    (workingBuffer C idata iw ih lfsparms).w (workingBuffer C idata iw ih lfsparms).h
    (mapsOf C idata iw ih lfsparms).2.direction_map (mapsOf C idata iw ih lfsparms).2.mw
    (mapsOf C idata iw ih lfsparms).2.mh (dirbingridsOf C iw ih lfsparms).2 lfsparms

/-- Status and map of quality synthesis. -/
def qualityOf {D W R : Type} (C : Collab D W R) (idata : List Nat) (iw ih : Int)
    (lfsparms : LFSPARMS) : Int × List Int :=
  C.gen_quality_map (mapsOf C idata iw ih lfsparms).2.direction_map
    (mapsOf C idata iw ih lfsparms).2.low_contrast_map
    (mapsOf C idata iw ih lfsparms).2.low_flow_map
    (mapsOf C idata iw ih lfsparms).2.high_curve_map
    (mapsOf C idata iw ih lfsparms).2.mw (mapsOf C idata iw ih lfsparms).2.mh

/-- The working buffer was set up: the three tables were built and the
padding (or, with no positive margin, the duplication) succeeded. -/
def Prepared {D W R : Type} (C : Collab D W R) (idata : List Nat) (iw ih : Int)
    (lfsparms : LFSPARMS) : Prop :=
  (dir2radOf C lfsparms).1 = 0 ∧ (dftwavesOf C lfsparms).1 = 0 ∧
  (dftgridsOf C iw ih lfsparms).1 = 0 ∧
  (if maxpadOf C lfsparms > 0 then (paddedOf C idata iw ih lfsparms).1 = 0
   else C.malloc (size_t_of_int (int_mul iw ih)) = true)

/-- Events up to the working buffer being ready. -/
def prepTrace {D W R : Type} (C : Collab D W R) (idata : List Nat) (iw ih : Int)
    (lfsparms : LFSPARMS) (a : Nat) : List Event :=
  [Event.call (Call.init_dir2rad lfsparms.num_directions) 0,
   Event.acquire Kind.dir2rad a,
   Event.call (Call.init_dftwaves lfsparms.num_dft_waves lfsparms.windowsize) 0,
   Event.acquire Kind.dftwaves (a + 1),
   Event.call (Call.init_rotgrids iw ih (maxpadOf C lfsparms) lfsparms.start_dir_angle
     lfsparms.num_directions lfsparms.windowsize lfsparms.windowsize
     Relative2.RELATIVE2ORIGIN) 0,
   Event.acquire Kind.rotgrids (a + 2)] ++
  (if maxpadOf C lfsparms > 0 then
    [Event.call (Call.pad_uchar_image idata iw ih (maxpadOf C lfsparms) lfsparms.pad_value) 0,
     Event.acquire Kind.mem (a + 3)]
   else
    [Event.malloc (size_t_of_int (int_mul iw ih)) true, Event.acquire Kind.mem (a + 3),
     Event.memcpy (a + 3) (size_t_of_int (int_mul iw ih))])

/-- The output slots after lines 115-120. -/
def mapSlots {D W R : Type} (C : Collab D W R) (o : Slots) (idata : List Nat) (iw ih : Int)
    (lfsparms : LFSPARMS) (a : Nat) : Slots :=
  { o with odmap := ⟨a + 4, (mapsOf C idata iw ih lfsparms).2.direction_map⟩,
           olcmap := ⟨a + 5, (mapsOf C idata iw ih lfsparms).2.low_contrast_map⟩,
           olfmap := ⟨a + 6, (mapsOf C idata iw ih lfsparms).2.low_flow_map⟩,
           ohcmap := ⟨a + 7, (mapsOf C idata iw ih lfsparms).2.high_curve_map⟩,
           omw := (mapsOf C idata iw ih lfsparms).2.mw,
           omh := (mapsOf C idata iw ih lfsparms).2.mh }

/-- Events of a successful map generation, up to the release of the three tables. -/
def mapsTrace {D W R : Type} (C : Collab D W R) (idata : List Nat) (iw ih : Int)
    (lfsparms : LFSPARMS) (a : Nat) : List Event :=
  prepTrace C idata iw ih lfsparms a ++
  [Event.bits_8to6 (a + 3) (workingBuffer C idata iw ih lfsparms).w
     (workingBuffer C idata iw ih lfsparms).h,
   Event.call (Call.gen_image_maps (a + 3) (rescaledBuffer C idata iw ih lfsparms)
     (workingBuffer C idata iw ih lfsparms).w (workingBuffer C idata iw ih lfsparms).h
     a (a + 1) (a + 2)) 0,
   Event.acquire Kind.mem (a + 4), Event.acquire Kind.mem (a + 5),
   Event.acquire Kind.mem (a + 6), Event.acquire Kind.mem (a + 7),
   Event.release Kind.dir2rad a, Event.release Kind.dftwaves (a + 1),
   Event.release Kind.rotgrids (a + 2)]

/-- The call of the binarization grid-offset build. -/
def dirbinCall {D W R : Type} (C : Collab D W R) (iw ih : Int) (lfsparms : LFSPARMS) : Call :=
  Call.init_rotgrids iw ih (maxpadOf C lfsparms) lfsparms.start_dir_angle
    lfsparms.num_directions lfsparms.dirbin_grid_w lfsparms.dirbin_grid_h
    Relative2.RELATIVE2CENTER

/-- The call of binarization. -/
def binarizeCall {D W R : Type} (C : Collab D W R) (idata : List Nat) (iw ih : Int)
    (lfsparms : LFSPARMS) (a : Nat) : Call :=
  Call.binarize_V2 (a + 3) (rescaledBuffer C idata iw ih lfsparms)
    (workingBuffer C idata iw ih lfsparms).w (workingBuffer C idata iw ih lfsparms).h
    (a + 4) (mapsOf C idata iw ih lfsparms).2.mw (mapsOf C idata iw ih lfsparms).2.mh (a + 8)

/-! ## The exits of `lfs_detect_minutiae_V2_getmaps`

One definition per `return` of the function, giving the status, the output
slots and the state it leaves when started in `s` (`s.next` is the first
address it acquires). `lfs_detect_minutiae_V2_getmaps_flat` proves that the
function is the choice between them. -/

/-- Return at line 35: `init_dir2rad` failed. -/
def exit_dir2rad {D W R : Type} (C : Collab D W R) (o : Slots) (lfsparms : LFSPARMS)
    (s : State) : Out :=
  ⟨(dir2radOf C lfsparms).1, o, ⟨s.next, s.trace ++
    [Event.call (Call.init_dir2rad lfsparms.num_directions) (dir2radOf C lfsparms).1]⟩⟩

/-- Return at line 44: `init_dftwaves` failed. -/
def exit_dftwaves {D W R : Type} (C : Collab D W R) (o : Slots) (lfsparms : LFSPARMS)
    (s : State) : Out :=
  ⟨(dftwavesOf C lfsparms).1, o, ⟨s.next + 1, s.trace ++
    [Event.call (Call.init_dir2rad lfsparms.num_directions) 0,
     Event.acquire Kind.dir2rad s.next,
     Event.call (Call.init_dftwaves lfsparms.num_dft_waves lfsparms.windowsize)
       (dftwavesOf C lfsparms).1,
     Event.release Kind.dir2rad s.next]⟩⟩

/-- Return at line 56: the first `init_rotgrids` failed. -/
def exit_dftgrids {D W R : Type} (C : Collab D W R) (o : Slots) (iw ih : Int)
    (lfsparms : LFSPARMS) (s : State) : Out :=
  ⟨(dftgridsOf C iw ih lfsparms).1, o, ⟨s.next + 2, s.trace ++
    [Event.call (Call.init_dir2rad lfsparms.num_directions) 0,
     Event.acquire Kind.dir2rad s.next,
     Event.call (Call.init_dftwaves lfsparms.num_dft_waves lfsparms.windowsize) 0,
     Event.acquire Kind.dftwaves (s.next + 1),
     Event.call (Call.init_rotgrids iw ih (maxpadOf C lfsparms) lfsparms.start_dir_angle
       lfsparms.num_directions lfsparms.windowsize lfsparms.windowsize
       Relative2.RELATIVE2ORIGIN) (dftgridsOf C iw ih lfsparms).1,
     Event.release Kind.dir2rad s.next, Event.release Kind.dftwaves (s.next + 1)]⟩⟩

/-- Return at line 67: `pad_uchar_image` failed. -/
def exit_pad {D W R : Type} (C : Collab D W R) (o : Slots) (idata : List Nat) (iw ih : Int)
    (lfsparms : LFSPARMS) (s : State) : Out :=
  ⟨(paddedOf C idata iw ih lfsparms).1, o, ⟨s.next + 3, s.trace ++
    [Event.call (Call.init_dir2rad lfsparms.num_directions) 0,
     Event.acquire Kind.dir2rad s.next,
     Event.call (Call.init_dftwaves lfsparms.num_dft_waves lfsparms.windowsize) 0,
     Event.acquire Kind.dftwaves (s.next + 1),
     Event.call (Call.init_rotgrids iw ih (maxpadOf C lfsparms) lfsparms.start_dir_angle
       lfsparms.num_directions lfsparms.windowsize lfsparms.windowsize
       Relative2.RELATIVE2ORIGIN) 0,
     Event.acquire Kind.rotgrids (s.next + 2),
     Event.call (Call.pad_uchar_image idata iw ih (maxpadOf C lfsparms) lfsparms.pad_value)
       (paddedOf C idata iw ih lfsparms).1,
     Event.release Kind.dir2rad s.next, Event.release Kind.dftwaves (s.next + 1),
     Event.release Kind.rotgrids (s.next + 2)]⟩⟩

/-- Return at line 79: `malloc` gave the null pointer. -/
def exit_malloc {D W R : Type} (C : Collab D W R) (o : Slots) (iw ih : Int)
    (lfsparms : LFSPARMS) (s : State) : Out :=
  ⟨-580, o, ⟨s.next + 3, s.trace ++
    [Event.call (Call.init_dir2rad lfsparms.num_directions) 0,
     Event.acquire Kind.dir2rad s.next,
     Event.call (Call.init_dftwaves lfsparms.num_dft_waves lfsparms.windowsize) 0,
     Event.acquire Kind.dftwaves (s.next + 1),
     Event.call (Call.init_rotgrids iw ih (maxpadOf C lfsparms) lfsparms.start_dir_angle
       lfsparms.num_directions lfsparms.windowsize lfsparms.windowsize
       Relative2.RELATIVE2ORIGIN) 0,
     Event.acquire Kind.rotgrids (s.next + 2),
     Event.malloc (size_t_of_int (int_mul iw ih)) false,
     Event.release Kind.dir2rad s.next, Event.release Kind.dftwaves (s.next + 1),
     Event.release Kind.rotgrids (s.next + 2), Event.fprintf]⟩⟩

/-- Return at line 107: `gen_image_maps` failed. -/
def exit_maps {D W R : Type} (C : Collab D W R) (o : Slots) (idata : List Nat) (iw ih : Int)
    (lfsparms : LFSPARMS) (s : State) : Out :=
  ⟨(mapsOf C idata iw ih lfsparms).1, o, ⟨s.next + 4, s.trace ++
    prepTrace C idata iw ih lfsparms s.next ++
    [Event.bits_8to6 (s.next + 3) (workingBuffer C idata iw ih lfsparms).w
       (workingBuffer C idata iw ih lfsparms).h,
     Event.call (Call.gen_image_maps (s.next + 3) (rescaledBuffer C idata iw ih lfsparms)
       (workingBuffer C idata iw ih lfsparms).w (workingBuffer C idata iw ih lfsparms).h
       s.next (s.next + 1) (s.next + 2)) (mapsOf C idata iw ih lfsparms).1,
     Event.release Kind.dir2rad s.next, Event.release Kind.dftwaves (s.next + 1),
     Event.release Kind.rotgrids (s.next + 2), Event.release Kind.mem (s.next + 3)]⟩⟩

/-- Return at line 124: success without binarization. -/
def exit_nobinarize {D W R : Type} (C : Collab D W R) (o : Slots) (idata : List Nat)
    (iw ih : Int) (lfsparms : LFSPARMS) (s : State) : Out :=
  ⟨0, mapSlots C o idata iw ih lfsparms s.next, ⟨s.next + 8, s.trace ++
    mapsTrace C idata iw ih lfsparms s.next ++ [Event.release Kind.mem (s.next + 3)]⟩⟩

/-- Return at line 143: the second `init_rotgrids` failed. -/
def exit_dirbingrids {D W R : Type} (C : Collab D W R) (o : Slots) (idata : List Nat)
    (iw ih : Int) (lfsparms : LFSPARMS) (s : State) : Out :=
  ⟨(dirbingridsOf C iw ih lfsparms).1, mapSlots C o idata iw ih lfsparms s.next,
    ⟨s.next + 8, s.trace ++ mapsTrace C idata iw ih lfsparms s.next ++
    [Event.call (dirbinCall C iw ih lfsparms) (dirbingridsOf C iw ih lfsparms).1,
     Event.release Kind.mem (s.next + 3), Event.release Kind.mem (s.next + 4),
     Event.release Kind.mem (s.next + 5), Event.release Kind.mem (s.next + 6),
     Event.release Kind.mem (s.next + 7)]⟩⟩

/-- Return at line 157: `binarize_V2` failed. -/
def exit_binarize {D W R : Type} (C : Collab D W R) (o : Slots) (idata : List Nat)
    (iw ih : Int) (lfsparms : LFSPARMS) (s : State) : Out :=
  ⟨(binarizedOf C idata iw ih lfsparms).1, mapSlots C o idata iw ih lfsparms s.next,
    ⟨s.next + 9, s.trace ++ mapsTrace C idata iw ih lfsparms s.next ++
    [Event.call (dirbinCall C iw ih lfsparms) 0, Event.acquire Kind.rotgrids (s.next + 8),
     Event.call (binarizeCall C idata iw ih lfsparms s.next)
       (binarizedOf C idata iw ih lfsparms).1,
     Event.release Kind.mem (s.next + 3), Event.release Kind.mem (s.next + 4),
     Event.release Kind.mem (s.next + 5), Event.release Kind.mem (s.next + 6),
     Event.release Kind.mem (s.next + 7), Event.release Kind.rotgrids (s.next + 8)]⟩⟩

/-- Return at line 170: success with binarization. -/
def exit_binarized {D W R : Type} (C : Collab D W R) (o : Slots) (idata : List Nat)
    (iw ih : Int) (lfsparms : LFSPARMS) (s : State) : Out :=
  ⟨0,
    { mapSlots C o idata iw ih lfsparms s.next with
      obdata := ⟨s.next + 9, C.gray2bin 1 1 0 (binarizedOf C idata iw ih lfsparms).2.data iw ih⟩,
      obw := (binarizedOf C idata iw ih lfsparms).2.w,
      obh := (binarizedOf C idata iw ih lfsparms).2.h },
    ⟨s.next + 10, s.trace ++ mapsTrace C idata iw ih lfsparms s.next ++
    [Event.call (dirbinCall C iw ih lfsparms) 0, Event.acquire Kind.rotgrids (s.next + 8),
     Event.call (binarizeCall C idata iw ih lfsparms s.next) 0,
     Event.acquire Kind.mem (s.next + 9),
     Event.release Kind.mem (s.next + 3), Event.release Kind.rotgrids (s.next + 8),
     Event.gray2bin 1 1 0 (s.next + 9) iw ih]⟩⟩

/-! ## The exits of `get_maps` -/

/-- The call of quality synthesis. -/
def qualityCall {D W R : Type} (C : Collab D W R) (idata : List Nat) (iw ih : Int)
    (lfsparms : LFSPARMS) (a : Nat) : Call :=
  Call.gen_quality_map (a + 4) (a + 5) (a + 6) (a + 7)
    (mapsOf C idata iw ih lfsparms).2.mw (mapsOf C idata iw ih lfsparms).2.mh

/-- Return at line 201: `lfs_detect_minutiae_V2_getmaps` left through the
failing exit `e`. -/
def top_exit_pipeline (o : Outputs) (e : Out) : TopOut :=
  ⟨e.ret, o, e.st⟩

/-- Return at line 212: `gen_quality_map` failed after the pipeline left
through the successful exit `e`, having started at address `a`. -/
def top_exit_quality {D W R : Type} (C : Collab D W R) (o : Outputs) (idata : List Nat)
    (iw ih : Int) (lfsparms : LFSPARMS) (a : Nat) (e : Out) : TopOut :=
  ⟨(qualityOf C idata iw ih lfsparms).1, o, ⟨e.st.next, e.st.trace ++
    [Event.call (qualityCall C idata iw ih lfsparms a) (qualityOf C idata iw ih lfsparms).1,
     Event.release Kind.mem (a + 4), Event.release Kind.mem (a + 5),
     Event.release Kind.mem (a + 6), Event.release Kind.mem (a + 7)]⟩⟩

/-- Return at line 228: success, after the pipeline left through the
successful exit `e`, having started at address `a`. -/
def top_exit_done {D W R : Type} (C : Collab D W R) (idata : List Nat)
    (iw ih : Int) (lfsparms : LFSPARMS) (a : Nat) (e : Out) : TopOut :=
  ⟨0,
    { oquality_map := ⟨e.st.next, (qualityOf C idata iw ih lfsparms).2⟩,
      odirection_map := e.slots.odmap, olow_contrast_map := e.slots.olcmap,
      olow_flow_map := e.slots.olfmap, ohigh_curve_map := e.slots.ohcmap,
      omap_w := e.slots.omw, omap_h := e.slots.omh,
      obdata := e.slots.obdata, obw := e.slots.obw, obh := e.slots.obh },
    ⟨e.st.next + 1, e.st.trace ++
      [Event.call (qualityCall C idata iw ih lfsparms a) 0,
       Event.acquire Kind.mem e.st.next]⟩⟩

/-- Lines 201-228 of `get_maps` as a function of what
`lfs_detect_minutiae_V2_getmaps` left behind (used to reason about
`get_maps` exit by exit). -/
def afterPipeline {D W R : Type} (C : Collab D W R) (o : Outputs) (r : Out) : TopOut :=
  if r.ret ≠ 0 then
    ⟨r.ret, o, r.st⟩
  else
    let q := gen_quality_map C r.slots.odmap r.slots.olcmap r.slots.olfmap r.slots.ohcmap
      r.slots.omw r.slots.omh r.st
    if q.ret ≠ 0 then
      ⟨q.ret, o,
        (((q.st.free r.slots.odmap).free r.slots.olcmap).free r.slots.olfmap).free
          r.slots.ohcmap⟩
    else
      ⟨0,
        { oquality_map := q.val, odirection_map := r.slots.odmap,
          olow_contrast_map := r.slots.olcmap, olow_flow_map := r.slots.olfmap,
          ohigh_curve_map := r.slots.ohcmap, omap_w := r.slots.omw, omap_h := r.slots.omh,
          obdata := r.slots.obdata, obw := r.slots.obw, obh := r.slots.obh },
        q.st⟩

/-! ## Reading a trace -/

/-- Replay the acquisitions and releases of a trace against the set of live
resources.  The replay fails (`none`) when an address is acquired while still
live, or when a release names a resource that is not live under that
deallocator (never acquired, already released, or the wrong deallocator);
otherwise it yields the resources still live at the end, in acquisition
order. -/
def ledger : List Event → List (Kind × Nat) → Option (List (Kind × Nat))
  | [], live => some live
  | Event.acquire k p :: es, live =>
    if p ∈ live.map Prod.snd then none else ledger es (live ++ [(k, p)])
  | Event.release k p :: es, live =>
    if (k, p) ∈ live then ledger es (live.erase (k, p)) else none
  | Event.call _ _ :: es, live => ledger es live
  | Event.malloc _ _ :: es, live => ledger es live
  | Event.memcpy _ _ :: es, live => ledger es live
  | Event.bits_8to6 _ _ _ :: es, live => ledger es live
  | Event.gray2bin _ _ _ _ _ _ :: es, live => ledger es live
  | Event.fprintf :: es, live => ledger es live

/-- The state a call starts from: allocator counter `n`, empty trace. -/
def State.init (n : Nat) : State := ⟨n, []⟩

/-- The fallible stages of the pipeline. -/
inductive Stage
  | init_dir2rad
  | init_dftwaves
  | init_rotgrids (relative2 : Relative2)
  | pad_uchar_image
  | malloc
  | gen_image_maps
  | binarize_V2
  | gen_quality_map
  deriving DecidableEq, Repr

/-- The stage a call belongs to. -/
def Call.stage : Call → Stage
  | Call.init_dir2rad _ => Stage.init_dir2rad
  | Call.init_dftwaves _ _ => Stage.init_dftwaves
  | Call.init_rotgrids _ _ _ _ _ _ _ relative2 => Stage.init_rotgrids relative2
  | Call.pad_uchar_image _ _ _ _ _ => Stage.pad_uchar_image
  | Call.gen_image_maps _ _ _ _ _ _ _ => Stage.gen_image_maps
  | Call.binarize_V2 _ _ _ _ _ _ _ _ => Stage.binarize_V2
  | Call.gen_quality_map _ _ _ _ _ _ => Stage.gen_quality_map

/-- The stages invoked in a trace, in order, each with the status it
produced.  A `malloc` that gives the null pointer counts as status -580, the
fixed code of the duplication path; one that succeeds counts as 0. -/
def stageLog : List Event → List (Stage × Int)
  | [] => []
  | Event.call c ret :: es => (c.stage, ret) :: stageLog es
  | Event.malloc _ ok :: es => (Stage.malloc, if ok then 0 else -580) :: stageLog es
  | Event.memcpy _ _ :: es => stageLog es
  | Event.bits_8to6 _ _ _ :: es => stageLog es
  | Event.gray2bin _ _ _ _ _ _ :: es => stageLog es
  | Event.acquire _ _ :: es => stageLog es
  | Event.release _ _ :: es => stageLog es
  | Event.fprintf :: es => stageLog es

/-- The fixed order of the stages of `get_maps`, as the spec lists them:
angle table, wave table, map grid-offset table, padding (duplication when the
margin is not positive), map generation, then only when `binarize` is
non-zero the binarization grid-offset table and binarization, then quality
synthesis. -/
def stageOrder (maxpad binarize : Int) : List Stage :=
  [Stage.init_dir2rad, Stage.init_dftwaves, Stage.init_rotgrids Relative2.RELATIVE2ORIGIN,
   if maxpad > 0 then Stage.pad_uchar_image else Stage.malloc, Stage.gen_image_maps] ++
  (if binarize = 0 then []
   else [Stage.init_rotgrids Relative2.RELATIVE2CENTER, Stage.binarize_V2]) ++
  [Stage.gen_quality_map]

/-- The buffer address, samples and dimensions handed to each call of
`gen_image_maps` in a trace. -/
def mapgenArgs : List Event → List (Nat × List Nat × Int × Int)
  | [] => []
  | Event.call (Call.gen_image_maps pdata px pw ph _ _ _) _ :: es =>
    (pdata, px, pw, ph) :: mapgenArgs es
  | _ :: es => mapgenArgs es

/-- The block-grid dimensions handed to each call of `binarize_V2` in a
trace. -/
def binarizeDims : List Event → List (Int × Int)
  | [] => []
  | Event.call (Call.binarize_V2 _ _ _ _ _ mw mh _) _ :: es => (mw, mh) :: binarizeDims es
  | _ :: es => binarizeDims es

/-- The block-grid dimensions handed to each call of `gen_quality_map` in a
trace. -/
def qualityDims : List Event → List (Int × Int)
  | [] => []
  | Event.call (Call.gen_quality_map _ _ _ _ mw mh) _ :: es => (mw, mh) :: qualityDims es
  | _ :: es => qualityDims es

/-- The addresses acquired in a trace. -/
def acquiredAddrs : List Event → List Nat
  | [] => []
  | Event.acquire _ p :: es => p :: acquiredAddrs es
  | _ :: es => acquiredAddrs es

/-- The addresses released in a trace. -/
def releasedAddrs : List Event → List Nat
  | [] => []
  | Event.release _ p :: es => p :: releasedAddrs es
  | _ :: es => releasedAddrs es

/-- The binarization step as the spec describes it (section 4.4): when it
succeeds, its image is at the resolution `pw x ph` of the buffer it was
handed. -/
def BinarizesAtPaddedResolution {D W R : Type} (C : Collab D W R) : Prop :=
  ∀ (px : List Nat) (pw ph : Int) (dm : List Int) (mw mh : Int) (g : R) (p : LFSPARMS),
    (C.binarize_V2 px pw ph dm mw mh g p).1 = 0 →
      (C.binarize_V2 px pw ph dm mw mh g p).2.w = pw ∧
      (C.binarize_V2 px pw ph dm mw mh g p).2.h = ph ∧
      (C.binarize_V2 px pw ph dm mw mh g p).2.data.length = px.length

/-! ## A concrete set of collaborators

Used to run the two functions on concrete inputs. -/

/-- Modelled from the spec: `pad_uchar_image` is not under src/.  Section 4.2
and `pad_image` of section 6: the result is the input surrounded by a margin
of `pad` samples of the pad value on every side, with its padded width and
height. -/
def spec_pad_image (idata : List Nat) (iw ih pad pad_value : Int) : Int × Image :=
  let pw := iw + 2 * pad
  let ph := ih + 2 * pad
  let v := (pad_value % 256).toNat
  let blank := List.replicate (pad.toNat * pw.toNat) v
  let side := List.replicate pad.toNat v
  let rows := (List.range ih.toNat).map
    (fun r => side ++ (idata.drop (r * iw.toNat)).take iw.toNat ++ side)
  (0, ⟨blank ++ rows.flatten ++ blank, pw, ph⟩)

/-- Modelled from the spec: `bits_8to6` is not under src/.  Section 4.2 and
`rescale_depth_8_to_6` of section 6: the first `w*h` samples go from the
8-bit domain to `[0,63]`. -/
def spec_rescale_depth_8_to_6 (data : List Nat) (w h : Int) : List Nat :=
  (data.take (w * h).toNat).map (fun v => v / 4) ++ data.drop (w * h).toNat

/-- Modelled from the spec: `binarize_V2` is not under src/.  Section 4.4:
the binarized image is at the padded resolution of the buffer handed in.  The
spec leaves the sample values to the collaborator; the threshold at 32 is a
placeholder. -/
def spec_binarize (px : List Nat) (pw ph : Int) : Int × Image :=
  (0, ⟨px.map (fun v => if v < 32 then 0 else 255), pw, ph⟩)

/-- Modelled from the spec: `gray2bin` is not under src/.
`invert_binary_polarity` of section 6: in place, the first `w*h` samples
become `greater_pix` when at least `thresh` and `less_pix` otherwise. -/
def spec_invert_binary_polarity (thresh less_pix greater_pix : Int) (data : List Nat)
    (w h : Int) : List Nat :=
  (data.take (w * h).toNat).map
    (fun v => if thresh ≤ (v : Int) then (greater_pix % 256).toNat else (less_pix % 256).toNat)
    ++ data.drop (w * h).toNat

/-- Modelled from the spec: `gen_image_maps` is not under src/.  Section 4.3:
four block maps over one block grid whose size is a function of the buffer
size and the block size (here 8, rounding up); the map entries are
placeholders. -/
def spec_generate_block_maps (pw ph : Int) : Int × Maps :=
  let mw := (pw + 7) / 8
  let mh := (ph + 7) / 8
  let cells := (mw * mh).toNat
  (0, ⟨List.replicate cells 0, List.replicate cells 0, List.replicate cells 0,
       List.replicate cells 0, mw, mh⟩)

/-- A set of collaborators with margin `margin`, whose binarization
grid-offset build returns `dirbin_ret` and whose quality synthesis returns
`quality_ret`; every other stage succeeds.  The tables carry no data. -/
def refCollab (margin dirbin_ret quality_ret : Int) : Collab Unit Unit Unit where
  get_max_padding_V2 := fun _ _ _ _ => margin
  init_dir2rad := fun _ => (0, ())
  init_dftwaves := fun _ _ => (0, ())
  init_rotgrids := fun _ _ _ _ _ _ _ rel =>
    match rel with
    | Relative2.RELATIVE2ORIGIN => (0, ())
    | Relative2.RELATIVE2CENTER => (dirbin_ret, ())
  pad_uchar_image := spec_pad_image
  malloc := fun _ => true
  bits_8to6 := spec_rescale_depth_8_to_6
  gen_image_maps := fun _ pw ph _ _ _ _ => spec_generate_block_maps pw ph
  binarize_V2 := fun px pw ph _ _ _ _ _ => spec_binarize px pw ph
  gray2bin := spec_invert_binary_polarity
  gen_quality_map := fun dm _ _ _ _ _ => (quality_ret, dm)

/-- A configuration for the concrete runs. -/
def refParms : LFSPARMS :=
  { pad_value := 128, windowsize := 24, windowoffset := 8, num_directions := 16,
    start_dir_angle := 0, num_dft_waves := 4, dirbin_grid_w := 7, dirbin_grid_h := 9,
    others := [] }

/-- Output slots of `lfs_detect_minutiae_V2_getmaps` before a call: null
pointers and zero dimensions. -/
def nullSlots : Slots :=
  ⟨⟨0, []⟩, ⟨0, []⟩, ⟨0, []⟩, ⟨0, []⟩, 0, 0, ⟨0, []⟩, 0, 0⟩

/-- Output slots of `get_maps` before a call: null pointers and zero
dimensions. -/
def nullOutputs : Outputs :=
  ⟨⟨0, []⟩, ⟨0, []⟩, ⟨0, []⟩, ⟨0, []⟩, ⟨0, []⟩, 0, 0, ⟨0, []⟩, 0, 0⟩

/-! ## Straight-line form of the two functions -/

/-- Lines 86-170 with the collaborator calls written out. -/
theorem lfs_detect_minutiae_V2_getmaps_maps_eq {D W R : Type} (C : Collab D W R) (o : Slots)
    (iw ih : Int) (lfsparms : LFSPARMS) (binarize : Int) (maxpad : Int)
    (dir2rad : Ptr D) (dftwaves : Ptr W) (dftgrids : Ptr R)
    (pdata0 : Ptr (List Nat)) (pw ph : Int) (s : State) :
    lfs_detect_minutiae_V2_getmaps_maps C o iw ih lfsparms binarize maxpad dir2rad dftwaves
      dftgrids pdata0 pw ph s =
    let px := C.bits_8to6 pdata0.obj pw ph
    let g := C.gen_image_maps px pw ph dir2rad.obj dftwaves.obj dftgrids.obj lfsparms
    let d := C.init_rotgrids iw ih maxpad lfsparms.start_dir_angle lfsparms.num_directions
        lfsparms.dirbin_grid_w lfsparms.dirbin_grid_h Relative2.RELATIVE2CENTER
    let z := C.binarize_V2 px pw ph g.2.direction_map g.2.mw g.2.mh d.2 lfsparms
    let a := s.next
    let o1 : Slots :=
      { o with odmap := ⟨a, g.2.direction_map⟩, olcmap := ⟨a + 1, g.2.low_contrast_map⟩,
               olfmap := ⟨a + 2, g.2.low_flow_map⟩, ohcmap := ⟨a + 3, g.2.high_curve_map⟩,
               omw := g.2.mw, omh := g.2.mh }
    let t0 := s.trace ++ [Event.bits_8to6 pdata0.addr pw ph,
      Event.call (Call.gen_image_maps pdata0.addr px pw ph dir2rad.addr dftwaves.addr
        dftgrids.addr) g.1]
    let t1 := t0 ++ [Event.acquire Kind.mem a, Event.acquire Kind.mem (a + 1),
      Event.acquire Kind.mem (a + 2), Event.acquire Kind.mem (a + 3),
      Event.release Kind.dir2rad dir2rad.addr, Event.release Kind.dftwaves dftwaves.addr,
      Event.release Kind.rotgrids dftgrids.addr]
    let t2 := t1 ++ [Event.call (Call.init_rotgrids iw ih maxpad lfsparms.start_dir_angle
      lfsparms.num_directions lfsparms.dirbin_grid_w lfsparms.dirbin_grid_h
      Relative2.RELATIVE2CENTER) d.1]
    let t3 := t2 ++ [Event.acquire Kind.rotgrids (a + 4),
      Event.call (Call.binarize_V2 pdata0.addr px pw ph a g.2.mw g.2.mh (a + 4)) z.1]
    if g.1 ≠ 0 then
      ⟨g.1, o, ⟨a, t0 ++ [Event.release Kind.dir2rad dir2rad.addr,
        Event.release Kind.dftwaves dftwaves.addr, Event.release Kind.rotgrids dftgrids.addr,
        Event.release Kind.mem pdata0.addr]⟩⟩
    else if binarize = 0 then
      ⟨0, o1, ⟨a + 4, t1 ++ [Event.release Kind.mem pdata0.addr]⟩⟩
    else if d.1 ≠ 0 then
      ⟨d.1, o1, ⟨a + 4, t2 ++ [Event.release Kind.mem pdata0.addr, Event.release Kind.mem a,
        Event.release Kind.mem (a + 1), Event.release Kind.mem (a + 2),
        Event.release Kind.mem (a + 3)]⟩⟩
    else if z.1 ≠ 0 then
      ⟨z.1, o1, ⟨a + 5, t3 ++ [Event.release Kind.mem pdata0.addr, Event.release Kind.mem a,
        Event.release Kind.mem (a + 1), Event.release Kind.mem (a + 2),
        Event.release Kind.mem (a + 3), Event.release Kind.rotgrids (a + 4)]⟩⟩
    else
      ⟨0, { o1 with obdata := ⟨a + 5, C.gray2bin 1 1 0 z.2.data iw ih⟩, obw := z.2.w, obh := z.2.h },
        ⟨a + 6, t3 ++ [Event.acquire Kind.mem (a + 5), Event.release Kind.mem pdata0.addr,
          Event.release Kind.rotgrids (a + 4), Event.gray2bin 1 1 0 (a + 5) iw ih]⟩⟩ := by
  by_cases h5 : (C.gen_image_maps (C.bits_8to6 pdata0.obj pw ph) pw ph dir2rad.obj dftwaves.obj
      dftgrids.obj lfsparms).1 = 0
  swap
  · simp [lfs_detect_minutiae_V2_getmaps_maps, bits_8to6, gen_image_maps, State.free_dir2rad,
      State.free_dftwaves, State.free_rotgrids, State.free, State.emit, State.acquire, h5]
  by_cases hb : binarize = 0
  · simp [lfs_detect_minutiae_V2_getmaps_maps, bits_8to6, gen_image_maps, State.free_dir2rad,
      State.free_dftwaves, State.free_rotgrids, State.free, State.emit, State.acquire, h5, hb]
  by_cases h6 : (C.init_rotgrids iw ih maxpad lfsparms.start_dir_angle lfsparms.num_directions
        lfsparms.dirbin_grid_w lfsparms.dirbin_grid_h Relative2.RELATIVE2CENTER).1 = 0
  swap
  · simp [lfs_detect_minutiae_V2_getmaps_maps, bits_8to6, gen_image_maps, init_rotgrids,
      State.free_dir2rad,
      State.free_dftwaves, State.free_rotgrids, State.free, State.emit, State.acquire, h5, hb, h6]
  by_cases h7 : (C.binarize_V2 (C.bits_8to6 pdata0.obj pw ph) pw ph
      (C.gen_image_maps (C.bits_8to6 pdata0.obj pw ph) pw ph dir2rad.obj dftwaves.obj
      dftgrids.obj lfsparms).2.direction_map
      (C.gen_image_maps (C.bits_8to6 pdata0.obj pw ph) pw ph dir2rad.obj dftwaves.obj
      dftgrids.obj lfsparms).2.mw
      (C.gen_image_maps (C.bits_8to6 pdata0.obj pw ph) pw ph dir2rad.obj dftwaves.obj
      dftgrids.obj lfsparms).2.mh
      (C.init_rotgrids iw ih maxpad lfsparms.start_dir_angle lfsparms.num_directions
        lfsparms.dirbin_grid_w lfsparms.dirbin_grid_h Relative2.RELATIVE2CENTER).2 lfsparms).1 = 0
  · simp [lfs_detect_minutiae_V2_getmaps_maps, bits_8to6, gen_image_maps, init_rotgrids,
      binarize_V2, gray2bin, State.free_dir2rad,
      State.free_dftwaves, State.free_rotgrids, State.free, State.emit, State.acquire, h5, hb, h6, h7]
  · simp [lfs_detect_minutiae_V2_getmaps_maps, bits_8to6, gen_image_maps, init_rotgrids,
      binarize_V2, gray2bin, State.free_dir2rad,
      State.free_dftwaves, State.free_rotgrids, State.free, State.emit, State.acquire, h5, hb, h6, h7]

/-- Lines 6-85 with the collaborator calls written out. -/
theorem lfs_detect_minutiae_V2_getmaps_eq {D W R : Type} (C : Collab D W R) (o : Slots)
    (idata : List Nat) (iw ih : Int) (lfsparms : LFSPARMS) (binarize : Int) (s : State) :
    lfs_detect_minutiae_V2_getmaps C o idata iw ih lfsparms binarize s =
    let maxpad := C.get_max_padding_V2 lfsparms.windowsize lfsparms.windowoffset
      lfsparms.dirbin_grid_w lfsparms.dirbin_grid_h
    let r1 := C.init_dir2rad lfsparms.num_directions
    let r2 := C.init_dftwaves lfsparms.num_dft_waves lfsparms.windowsize
    let r3 := C.init_rotgrids iw ih maxpad lfsparms.start_dir_angle lfsparms.num_directions
        lfsparms.windowsize lfsparms.windowsize Relative2.RELATIVE2ORIGIN
    let p := C.pad_uchar_image idata iw ih maxpad lfsparms.pad_value
    let a := s.next
    let t1 := s.trace ++ [Event.call (Call.init_dir2rad lfsparms.num_directions) r1.1]
    let t2 := t1 ++ [Event.acquire Kind.dir2rad a,
      Event.call (Call.init_dftwaves lfsparms.num_dft_waves lfsparms.windowsize) r2.1]
    let t3 := t2 ++ [Event.acquire Kind.dftwaves (a + 1),
      Event.call (Call.init_rotgrids iw ih maxpad lfsparms.start_dir_angle
        lfsparms.num_directions lfsparms.windowsize lfsparms.windowsize
        Relative2.RELATIVE2ORIGIN) r3.1]
    let t4 := t3 ++ [Event.acquire Kind.rotgrids (a + 2)]
    let t5 := t4 ++ [Event.call (Call.pad_uchar_image idata iw ih maxpad lfsparms.pad_value) p.1]
    let rel := [Event.release Kind.dir2rad a, Event.release Kind.dftwaves (a + 1),
      Event.release Kind.rotgrids (a + 2)]
    if r1.1 ≠ 0 then ⟨r1.1, o, ⟨a, t1⟩⟩
    else if r2.1 ≠ 0 then ⟨r2.1, o, ⟨a + 1, t2 ++ [Event.release Kind.dir2rad a]⟩⟩
    else if r3.1 ≠ 0 then
      ⟨r3.1, o, ⟨a + 2, t3 ++ [Event.release Kind.dir2rad a,
        Event.release Kind.dftwaves (a + 1)]⟩⟩
    else if maxpad > 0 then
      if p.1 ≠ 0 then ⟨p.1, o, ⟨a + 3, t5 ++ rel⟩⟩
      else
        lfs_detect_minutiae_V2_getmaps_maps C o iw ih lfsparms binarize maxpad
          ⟨a, r1.2⟩ ⟨a + 1, r2.2⟩ ⟨a + 2, r3.2⟩ ⟨a + 3, p.2.data⟩ p.2.w p.2.h
          ⟨a + 4, t5 ++ [Event.acquire Kind.mem (a + 3)]⟩
    else if C.malloc (size_t_of_int (int_mul iw ih)) = false then
      ⟨-580, o, ⟨a + 3, t4 ++ [Event.malloc (size_t_of_int (int_mul iw ih)) false] ++ rel ++ [Event.fprintf]⟩⟩
    else
      lfs_detect_minutiae_V2_getmaps_maps C o iw ih lfsparms binarize maxpad
        ⟨a, r1.2⟩ ⟨a + 1, r2.2⟩ ⟨a + 2, r3.2⟩ ⟨a + 3, idata.take (size_t_of_int (int_mul iw ih))⟩ iw ih
        ⟨a + 4, t4 ++ [Event.malloc (size_t_of_int (int_mul iw ih)) true, Event.acquire Kind.mem (a + 3),
          Event.memcpy (a + 3) (size_t_of_int (int_mul iw ih))]⟩ := by
  by_cases h1 : (C.init_dir2rad lfsparms.num_directions).1 = 0
  swap
  · simp [lfs_detect_minutiae_V2_getmaps, init_dir2rad, State.emit, h1]
  by_cases h2 : (C.init_dftwaves lfsparms.num_dft_waves lfsparms.windowsize).1 = 0
  swap
  · simp [lfs_detect_minutiae_V2_getmaps, init_dir2rad, init_dftwaves, State.emit,
      State.acquire, State.free_dir2rad, h1, h2]
  by_cases h3 : (C.init_rotgrids iw ih (C.get_max_padding_V2 lfsparms.windowsize
      lfsparms.windowoffset lfsparms.dirbin_grid_w lfsparms.dirbin_grid_h)
      lfsparms.start_dir_angle lfsparms.num_directions
      lfsparms.windowsize lfsparms.windowsize Relative2.RELATIVE2ORIGIN).1 = 0
  swap
  · simp [lfs_detect_minutiae_V2_getmaps, init_dir2rad, init_dftwaves, init_rotgrids,
      State.emit, State.acquire, State.free_dir2rad, State.free_dftwaves, h1, h2, h3]
  by_cases hp : C.get_max_padding_V2 lfsparms.windowsize
      lfsparms.windowoffset lfsparms.dirbin_grid_w lfsparms.dirbin_grid_h > 0
  · by_cases h4 : (C.pad_uchar_image idata iw ih (C.get_max_padding_V2 lfsparms.windowsize
      lfsparms.windowoffset lfsparms.dirbin_grid_w lfsparms.dirbin_grid_h)
      lfsparms.pad_value).1 = 0
    · simp [lfs_detect_minutiae_V2_getmaps, init_dir2rad, init_dftwaves, init_rotgrids,
        pad_uchar_image, State.emit, State.acquire, h1, h2, h3, hp, h4]
    · simp [lfs_detect_minutiae_V2_getmaps, init_dir2rad, init_dftwaves, init_rotgrids,
        pad_uchar_image, State.emit, State.acquire, State.free_dir2rad, State.free_dftwaves,
        State.free_rotgrids, h1, h2, h3, hp, h4]
  · by_cases h4 : C.malloc (size_t_of_int (int_mul iw ih)) = true
    · simp [lfs_detect_minutiae_V2_getmaps, init_dir2rad, init_dftwaves, init_rotgrids,
        malloc, memcpy, State.emit, State.acquire, h1, h2, h3, hp, h4]
    · simp [lfs_detect_minutiae_V2_getmaps, init_dir2rad, init_dftwaves, init_rotgrids,
        malloc, memcpy, State.emit, State.acquire, State.free_dir2rad, State.free_dftwaves,
        State.free_rotgrids, h1, h2, h3, hp, h4]


/-- The function `lfs_detect_minutiae_V2_getmaps` is the choice between its
ten exits, in the order of the `return`s. -/
theorem lfs_detect_minutiae_V2_getmaps_flat {D W R : Type} (C : Collab D W R) (o : Slots)
    (idata : List Nat) (iw ih : Int) (lfsparms : LFSPARMS) (binarize : Int) (s : State) :
    lfs_detect_minutiae_V2_getmaps C o idata iw ih lfsparms binarize s =
    if (dir2radOf C lfsparms).1 ≠ 0 then exit_dir2rad C o lfsparms s
    else if (dftwavesOf C lfsparms).1 ≠ 0 then exit_dftwaves C o lfsparms s
    else if (dftgridsOf C iw ih lfsparms).1 ≠ 0 then exit_dftgrids C o iw ih lfsparms s
    else if maxpadOf C lfsparms > 0 ∧ (paddedOf C idata iw ih lfsparms).1 ≠ 0 then
      exit_pad C o idata iw ih lfsparms s
    else if ¬ maxpadOf C lfsparms > 0 ∧ C.malloc (size_t_of_int (int_mul iw ih)) = false then
      exit_malloc C o iw ih lfsparms s
    else if (mapsOf C idata iw ih lfsparms).1 ≠ 0 then exit_maps C o idata iw ih lfsparms s
    else if binarize = 0 then exit_nobinarize C o idata iw ih lfsparms s
    else if (dirbingridsOf C iw ih lfsparms).1 ≠ 0 then
      exit_dirbingrids C o idata iw ih lfsparms s
    else if (binarizedOf C idata iw ih lfsparms).1 ≠ 0 then
      exit_binarize C o idata iw ih lfsparms s
    else exit_binarized C o idata iw ih lfsparms s := by
  rw [lfs_detect_minutiae_V2_getmaps_eq]
  by_cases h1 : (C.init_dir2rad lfsparms.num_directions).1 = 0
  swap
  · simp [exit_dir2rad, dir2radOf, h1]
  by_cases h2 : (C.init_dftwaves lfsparms.num_dft_waves lfsparms.windowsize).1 = 0
  swap
  · simp [exit_dftwaves, dir2radOf, dftwavesOf, h1, h2]
  by_cases h3 : (C.init_rotgrids iw ih (C.get_max_padding_V2 lfsparms.windowsize
      lfsparms.windowoffset lfsparms.dirbin_grid_w lfsparms.dirbin_grid_h)
      lfsparms.start_dir_angle lfsparms.num_directions
      lfsparms.windowsize lfsparms.windowsize Relative2.RELATIVE2ORIGIN).1 = 0
  swap
  · simp [exit_dftgrids, dir2radOf, dftwavesOf, dftgridsOf, maxpadOf, h1, h2, h3]
  by_cases hp : C.get_max_padding_V2 lfsparms.windowsize
      lfsparms.windowoffset lfsparms.dirbin_grid_w lfsparms.dirbin_grid_h > 0
  · by_cases h4 : (C.pad_uchar_image idata iw ih (C.get_max_padding_V2 lfsparms.windowsize
      lfsparms.windowoffset lfsparms.dirbin_grid_w lfsparms.dirbin_grid_h)
      lfsparms.pad_value).1 = 0
    swap
    · simp [exit_pad, dir2radOf, dftwavesOf, dftgridsOf, maxpadOf, paddedOf, h1, h2, h3, hp, h4]
    by_cases h5 : (mapsOf C idata iw ih lfsparms).1 = 0
    swap
    · have h5a := h5
      simp [mapsOf, rescaledBuffer, workingBuffer, dir2radOf, dftwavesOf, dftgridsOf, maxpadOf,
        paddedOf, hp] at h5a
      simp [exit_maps, lfs_detect_minutiae_V2_getmaps_maps_eq, mapsOf, rescaledBuffer,
        workingBuffer, dir2radOf, dftwavesOf, dftgridsOf,
        maxpadOf, paddedOf, prepTrace, h1, h2, h3, hp, h4, h5a]
    have h5a := h5
    simp [mapsOf, rescaledBuffer, workingBuffer, dir2radOf, dftwavesOf, dftgridsOf, maxpadOf,
      paddedOf, hp] at h5a
    by_cases hb : binarize = 0
    · simp [exit_nobinarize, lfs_detect_minutiae_V2_getmaps_maps_eq, mapsOf, rescaledBuffer,
        workingBuffer, dir2radOf, dftwavesOf, dftgridsOf,
        maxpadOf, paddedOf, prepTrace, mapsTrace, mapSlots, h1, h2, h3, hp, h4, h5a, hb]
    by_cases h6 : (dirbingridsOf C iw ih lfsparms).1 = 0
    swap
    · have h6a := h6
      simp [dirbingridsOf, maxpadOf] at h6a
      simp [exit_dirbingrids, lfs_detect_minutiae_V2_getmaps_maps_eq, mapsOf, rescaledBuffer,
        workingBuffer, dir2radOf, dftwavesOf, dftgridsOf,
        maxpadOf, paddedOf, prepTrace, mapsTrace, mapSlots, dirbingridsOf, dirbinCall,
        h1, h2, h3, hp, h4, h5a, hb, h6a]
    have h6a := h6
    simp [dirbingridsOf, maxpadOf] at h6a
    by_cases h7 : (binarizedOf C idata iw ih lfsparms).1 = 0
    all_goals
      have h7a := h7
      simp [binarizedOf, mapsOf, rescaledBuffer, workingBuffer, dir2radOf, dftwavesOf,
        dftgridsOf, dirbingridsOf, maxpadOf, paddedOf, hp] at h7a
      simp [exit_binarize, exit_binarized, lfs_detect_minutiae_V2_getmaps_maps_eq, mapsOf,
        rescaledBuffer, workingBuffer, dir2radOf, dftwavesOf, dftgridsOf,
        maxpadOf, paddedOf, prepTrace, mapsTrace, mapSlots, dirbingridsOf, dirbinCall,
        binarizedOf, binarizeCall, h1, h2, h3, hp, h4, h5a, hb, h6a, h7a]
  · by_cases h4 : C.malloc (size_t_of_int (int_mul iw ih)) = true
    swap
    · simp [exit_malloc, dir2radOf, dftwavesOf, dftgridsOf, maxpadOf, paddedOf, h1, h2, h3, hp,
        h4]
    by_cases h5 : (mapsOf C idata iw ih lfsparms).1 = 0
    swap
    · have h5a := h5
      simp [mapsOf, rescaledBuffer, workingBuffer, dir2radOf, dftwavesOf, dftgridsOf, maxpadOf,
        paddedOf, hp] at h5a
      simp [exit_maps, lfs_detect_minutiae_V2_getmaps_maps_eq, mapsOf, rescaledBuffer,
        workingBuffer, dir2radOf, dftwavesOf, dftgridsOf,
        maxpadOf, paddedOf, prepTrace, h1, h2, h3, hp, h4, h5a]
    have h5a := h5
    simp [mapsOf, rescaledBuffer, workingBuffer, dir2radOf, dftwavesOf, dftgridsOf, maxpadOf,
      paddedOf, hp] at h5a
    by_cases hb : binarize = 0
    · simp [exit_nobinarize, lfs_detect_minutiae_V2_getmaps_maps_eq, mapsOf, rescaledBuffer,
        workingBuffer, dir2radOf, dftwavesOf, dftgridsOf,
        maxpadOf, paddedOf, prepTrace, mapsTrace, mapSlots, h1, h2, h3, hp, h4, h5a, hb]
    by_cases h6 : (dirbingridsOf C iw ih lfsparms).1 = 0
    swap
    · have h6a := h6
      simp [dirbingridsOf, maxpadOf] at h6a
      simp [exit_dirbingrids, lfs_detect_minutiae_V2_getmaps_maps_eq, mapsOf, rescaledBuffer,
        workingBuffer, dir2radOf, dftwavesOf, dftgridsOf,
        maxpadOf, paddedOf, prepTrace, mapsTrace, mapSlots, dirbingridsOf, dirbinCall,
        h1, h2, h3, hp, h4, h5a, hb, h6a]
    have h6a := h6
    simp [dirbingridsOf, maxpadOf] at h6a
    by_cases h7 : (binarizedOf C idata iw ih lfsparms).1 = 0
    all_goals
      have h7a := h7
      simp [binarizedOf, mapsOf, rescaledBuffer, workingBuffer, dir2radOf, dftwavesOf,
        dftgridsOf, dirbingridsOf, maxpadOf, paddedOf, hp] at h7a
      simp [exit_binarize, exit_binarized, lfs_detect_minutiae_V2_getmaps_maps_eq, mapsOf,
        rescaledBuffer, workingBuffer, dir2radOf, dftwavesOf, dftgridsOf,
        maxpadOf, paddedOf, prepTrace, mapsTrace, mapSlots, dirbingridsOf, dirbinCall,
        binarizedOf, binarizeCall, h1, h2, h3, hp, h4, h5a, hb, h6a, h7a]

/-- Case analysis over the exits of `lfs_detect_minutiae_V2_getmaps`: what
holds of every exit, under the condition that selects it, holds of the call. -/
theorem lfs_detect_minutiae_V2_getmaps_cases {D W R : Type} (P : Out → Prop)
    (C : Collab D W R) (o : Slots) (idata : List Nat) (iw ih : Int) (lfsparms : LFSPARMS)
    (binarize : Int) (s : State)
    (H1 : (dir2radOf C lfsparms).1 ≠ 0 → P (exit_dir2rad C o lfsparms s))
    (H2 : (dftwavesOf C lfsparms).1 ≠ 0 → P (exit_dftwaves C o lfsparms s))
    (H3 : (dftgridsOf C iw ih lfsparms).1 ≠ 0 → P (exit_dftgrids C o iw ih lfsparms s))
    (H4 : maxpadOf C lfsparms > 0 → (paddedOf C idata iw ih lfsparms).1 ≠ 0 →
      P (exit_pad C o idata iw ih lfsparms s))
    (H5 : ¬ maxpadOf C lfsparms > 0 → C.malloc (size_t_of_int (int_mul iw ih)) = false →
      P (exit_malloc C o iw ih lfsparms s))
    (H6 : Prepared C idata iw ih lfsparms → (mapsOf C idata iw ih lfsparms).1 ≠ 0 →
      P (exit_maps C o idata iw ih lfsparms s))
    (H7 : Prepared C idata iw ih lfsparms → (mapsOf C idata iw ih lfsparms).1 = 0 →
      binarize = 0 → P (exit_nobinarize C o idata iw ih lfsparms s))
    (H8 : Prepared C idata iw ih lfsparms → (mapsOf C idata iw ih lfsparms).1 = 0 →
      binarize ≠ 0 → (dirbingridsOf C iw ih lfsparms).1 ≠ 0 →
      P (exit_dirbingrids C o idata iw ih lfsparms s))
    (H9 : Prepared C idata iw ih lfsparms → (mapsOf C idata iw ih lfsparms).1 = 0 →
      binarize ≠ 0 → (binarizedOf C idata iw ih lfsparms).1 ≠ 0 →
      P (exit_binarize C o idata iw ih lfsparms s))
    (H10 : Prepared C idata iw ih lfsparms → (mapsOf C idata iw ih lfsparms).1 = 0 →
      binarize ≠ 0 → (binarizedOf C idata iw ih lfsparms).1 = 0 →
      P (exit_binarized C o idata iw ih lfsparms s)) :
    P (lfs_detect_minutiae_V2_getmaps C o idata iw ih lfsparms binarize s) := by
  rw [lfs_detect_minutiae_V2_getmaps_flat]
  by_cases h1 : (dir2radOf C lfsparms).1 ≠ 0
  · rw [if_pos h1]; exact H1 h1
  rw [if_neg h1]
  by_cases h2 : (dftwavesOf C lfsparms).1 ≠ 0
  · rw [if_pos h2]; exact H2 h2
  rw [if_neg h2]
  by_cases h3 : (dftgridsOf C iw ih lfsparms).1 ≠ 0
  · rw [if_pos h3]; exact H3 h3
  rw [if_neg h3]
  by_cases h4 : maxpadOf C lfsparms > 0 ∧ (paddedOf C idata iw ih lfsparms).1 ≠ 0
  · rw [if_pos h4]; exact H4 h4.1 h4.2
  rw [if_neg h4]
  by_cases h5 : ¬ maxpadOf C lfsparms > 0 ∧ C.malloc (size_t_of_int (int_mul iw ih)) = false
  · rw [if_pos h5]; exact H5 h5.1 h5.2
  rw [if_neg h5]
  have hprep : Prepared C idata iw ih lfsparms := by
    refine ⟨not_not.mp h1, not_not.mp h2, not_not.mp h3, ?_⟩
    by_cases hp : maxpadOf C lfsparms > 0
    · rw [if_pos hp]
      by_contra hc
      exact h4 ⟨hp, hc⟩
    · rw [if_neg hp]
      by_contra hc
      exact h5 ⟨hp, by simpa using hc⟩
  by_cases h6 : (mapsOf C idata iw ih lfsparms).1 ≠ 0
  · rw [if_pos h6]; exact H6 hprep h6
  rw [if_neg h6]
  have h6a : (mapsOf C idata iw ih lfsparms).1 = 0 := not_not.mp h6
  by_cases hb : binarize = 0
  · rw [if_pos hb]; exact H7 hprep h6a hb
  rw [if_neg hb]
  by_cases h8 : (dirbingridsOf C iw ih lfsparms).1 ≠ 0
  · rw [if_pos h8]; exact H8 hprep h6a hb h8
  rw [if_neg h8]
  by_cases h9 : (binarizedOf C idata iw ih lfsparms).1 ≠ 0
  · rw [if_pos h9]; exact H9 hprep h6a hb h9
  rw [if_neg h9]
  exact H10 hprep h6a hb (not_not.mp h9)

/-- With `id = 8`, `get_maps` is `afterPipeline` of the pipeline call. -/
theorem get_maps_eq {D W R : Type} (C : Collab D W R) (o : Outputs) (locals : Slots)
    (idata : List Nat) (iw ih : Int) (ppmm : Nat) (lfsparms : LFSPARMS) (binarize : Int)
    (s : State) :
    get_maps C o locals idata iw ih 8 ppmm lfsparms binarize s =
      afterPipeline C o
        (lfs_detect_minutiae_V2_getmaps C locals idata iw ih lfsparms binarize s) := by
  simp [get_maps, afterPipeline]

/-- Case analysis over the exits of `get_maps` with `id = 8`. -/
theorem get_maps_cases {D W R : Type} (P : TopOut → Prop)
    (C : Collab D W R) (o : Outputs) (locals : Slots) (idata : List Nat) (iw ih : Int)
    (ppmm : Nat) (lfsparms : LFSPARMS) (binarize : Int) (s : State)
    (T1 : (dir2radOf C lfsparms).1 ≠ 0 →
      P (top_exit_pipeline o (exit_dir2rad C locals lfsparms s)))
    (T2 : (dftwavesOf C lfsparms).1 ≠ 0 →
      P (top_exit_pipeline o (exit_dftwaves C locals lfsparms s)))
    (T3 : (dftgridsOf C iw ih lfsparms).1 ≠ 0 →
      P (top_exit_pipeline o (exit_dftgrids C locals iw ih lfsparms s)))
    (T4 : maxpadOf C lfsparms > 0 → (paddedOf C idata iw ih lfsparms).1 ≠ 0 →
      P (top_exit_pipeline o (exit_pad C locals idata iw ih lfsparms s)))
    (T5 : ¬ maxpadOf C lfsparms > 0 → C.malloc (size_t_of_int (int_mul iw ih)) = false →
      P (top_exit_pipeline o (exit_malloc C locals iw ih lfsparms s)))
    (T6 : (mapsOf C idata iw ih lfsparms).1 ≠ 0 →
      P (top_exit_pipeline o (exit_maps C locals idata iw ih lfsparms s)))
    (T7 : (mapsOf C idata iw ih lfsparms).1 = 0 → binarize ≠ 0 →
      (dirbingridsOf C iw ih lfsparms).1 ≠ 0 →
      P (top_exit_pipeline o (exit_dirbingrids C locals idata iw ih lfsparms s)))
    (T8 : (mapsOf C idata iw ih lfsparms).1 = 0 → binarize ≠ 0 →
      (binarizedOf C idata iw ih lfsparms).1 ≠ 0 →
      P (top_exit_pipeline o (exit_binarize C locals idata iw ih lfsparms s)))
    (T9 : (mapsOf C idata iw ih lfsparms).1 = 0 → binarize = 0 →
      (qualityOf C idata iw ih lfsparms).1 ≠ 0 →
      P (top_exit_quality C o idata iw ih lfsparms s.next
        (exit_nobinarize C locals idata iw ih lfsparms s)))
    (T10 : (mapsOf C idata iw ih lfsparms).1 = 0 → binarize ≠ 0 →
      (binarizedOf C idata iw ih lfsparms).1 = 0 →
      (qualityOf C idata iw ih lfsparms).1 ≠ 0 →
      P (top_exit_quality C o idata iw ih lfsparms s.next
        (exit_binarized C locals idata iw ih lfsparms s)))
    (T11 : (mapsOf C idata iw ih lfsparms).1 = 0 → binarize = 0 →
      (qualityOf C idata iw ih lfsparms).1 = 0 →
      P (top_exit_done C idata iw ih lfsparms s.next
        (exit_nobinarize C locals idata iw ih lfsparms s)))
    (T12 : (mapsOf C idata iw ih lfsparms).1 = 0 → binarize ≠ 0 →
      (binarizedOf C idata iw ih lfsparms).1 = 0 →
      (qualityOf C idata iw ih lfsparms).1 = 0 →
      P (top_exit_done C idata iw ih lfsparms s.next
        (exit_binarized C locals idata iw ih lfsparms s))) :
    P (get_maps C o locals idata iw ih 8 ppmm lfsparms binarize s) := by
  rw [get_maps_eq]
  refine lfs_detect_minutiae_V2_getmaps_cases (fun r => P (afterPipeline C o r)) C locals idata
    iw ih lfsparms binarize s ?_ ?_ ?_ ?_ ?_ ?_ ?_ ?_ ?_ ?_
  · intro h
    have e : afterPipeline C o (exit_dir2rad C locals lfsparms s) =
        top_exit_pipeline o (exit_dir2rad C locals lfsparms s) := by
      simp [afterPipeline, top_exit_pipeline, exit_dir2rad, h]
    rw [e]; exact T1 h
  · intro h
    have e : afterPipeline C o (exit_dftwaves C locals lfsparms s) =
        top_exit_pipeline o (exit_dftwaves C locals lfsparms s) := by
      simp [afterPipeline, top_exit_pipeline, exit_dftwaves, h]
    rw [e]; exact T2 h
  · intro h
    have e : afterPipeline C o (exit_dftgrids C locals iw ih lfsparms s) =
        top_exit_pipeline o (exit_dftgrids C locals iw ih lfsparms s) := by
      simp [afterPipeline, top_exit_pipeline, exit_dftgrids, h]
    rw [e]; exact T3 h
  · intro hp h
    have e : afterPipeline C o (exit_pad C locals idata iw ih lfsparms s) =
        top_exit_pipeline o (exit_pad C locals idata iw ih lfsparms s) := by
      simp [afterPipeline, top_exit_pipeline, exit_pad, h]
    rw [e]; exact T4 hp h
  · intro hp h
    have e : afterPipeline C o (exit_malloc C locals iw ih lfsparms s) =
        top_exit_pipeline o (exit_malloc C locals iw ih lfsparms s) := by
      simp [afterPipeline, top_exit_pipeline, exit_malloc]
    rw [e]; exact T5 hp h
  · intro _ h
    have e : afterPipeline C o (exit_maps C locals idata iw ih lfsparms s) =
        top_exit_pipeline o (exit_maps C locals idata iw ih lfsparms s) := by
      simp [afterPipeline, top_exit_pipeline, exit_maps, h]
    rw [e]; exact T6 h
  · intro _ hm hb
    by_cases hq : (qualityOf C idata iw ih lfsparms).1 = 0
    · have hq1 := hq
      simp only [qualityOf] at hq1
      have e : afterPipeline C o (exit_nobinarize C locals idata iw ih lfsparms s) =
          top_exit_done C idata iw ih lfsparms s.next
            (exit_nobinarize C locals idata iw ih lfsparms s) := by
        simp [afterPipeline, top_exit_done, exit_nobinarize, gen_quality_map, mapSlots,
          qualityOf, qualityCall, State.emit, State.acquire, hq1]
      rw [e]; exact T11 hm hb hq
    · have hq1 := hq
      simp only [qualityOf] at hq1
      have e : afterPipeline C o (exit_nobinarize C locals idata iw ih lfsparms s) =
          top_exit_quality C o idata iw ih lfsparms s.next
            (exit_nobinarize C locals idata iw ih lfsparms s) := by
        simp [afterPipeline, top_exit_quality, exit_nobinarize, gen_quality_map, mapSlots,
          qualityOf, qualityCall, State.emit, State.acquire, State.free, hq1]
      rw [e]; exact T9 hm hb hq
  · intro _ hm hb h
    have e : afterPipeline C o (exit_dirbingrids C locals idata iw ih lfsparms s) =
        top_exit_pipeline o (exit_dirbingrids C locals idata iw ih lfsparms s) := by
      simp [afterPipeline, top_exit_pipeline, exit_dirbingrids, h]
    rw [e]; exact T7 hm hb h
  · intro _ hm hb h
    have e : afterPipeline C o (exit_binarize C locals idata iw ih lfsparms s) =
        top_exit_pipeline o (exit_binarize C locals idata iw ih lfsparms s) := by
      simp [afterPipeline, top_exit_pipeline, exit_binarize, h]
    rw [e]; exact T8 hm hb h
  · intro _ hm hb hz
    by_cases hq : (qualityOf C idata iw ih lfsparms).1 = 0
    · have hq1 := hq
      simp only [qualityOf] at hq1
      have e : afterPipeline C o (exit_binarized C locals idata iw ih lfsparms s) =
          top_exit_done C idata iw ih lfsparms s.next
            (exit_binarized C locals idata iw ih lfsparms s) := by
        simp [afterPipeline, top_exit_done, exit_binarized, gen_quality_map, mapSlots,
          qualityOf, qualityCall, State.emit, State.acquire, hq1]
      rw [e]; exact T12 hm hb hz hq
    · have hq1 := hq
      simp only [qualityOf] at hq1
      have e : afterPipeline C o (exit_binarized C locals idata iw ih lfsparms s) =
          top_exit_quality C o idata iw ih lfsparms s.next
            (exit_binarized C locals idata iw ih lfsparms s) := by
        simp [afterPipeline, top_exit_quality, exit_binarized, gen_quality_map, mapSlots,
          qualityOf, qualityCall, State.emit, State.acquire, State.free, hq1]
      rw [e]; exact T10 hm hb hz hq

/-! ## What a failing call leaves behind -/

/-- What a failing `get_maps` (with `id = 8`) leaves live: nothing, except
when quality synthesis fails after a successful binarization, where the
binarized image (the tenth address of the call) is left live. -/
theorem get_maps_failure_residue {D W R : Type} (C : Collab D W R) (o : Outputs)
    (locals : Slots) (idata : List Nat) (iw ih : Int) (ppmm : Nat) (lfsparms : LFSPARMS)
    (binarize : Int) (n : Nat)
    (hret : (get_maps C o locals idata iw ih 8 ppmm lfsparms binarize (State.init n)).ret ≠ 0) :
    ledger (get_maps C o locals idata iw ih 8 ppmm lfsparms binarize
      (State.init n)).st.trace [] = some [] ∨
    (binarize ≠ 0 ∧ (binarizedOf C idata iw ih lfsparms).1 = 0 ∧
      (qualityOf C idata iw ih lfsparms).1 ≠ 0 ∧
      ledger (get_maps C o locals idata iw ih 8 ppmm lfsparms binarize
        (State.init n)).st.trace [] = some [(Kind.mem, n + 9)]) := by
  revert hret
  refine get_maps_cases
    (fun r => r.ret ≠ 0 → (ledger r.st.trace [] = some [] ∨
      (binarize ≠ 0 ∧ (binarizedOf C idata iw ih lfsparms).1 = 0 ∧
        (qualityOf C idata iw ih lfsparms).1 ≠ 0 ∧
        ledger r.st.trace [] = some [(Kind.mem, n + 9)])))
    C o locals idata iw ih ppmm lfsparms binarize (State.init n)
    ?_ ?_ ?_ ?_ ?_ ?_ ?_ ?_ ?_ ?_ ?_ ?_
  all_goals intros
  all_goals by_cases hp : maxpadOf C lfsparms > 0
  all_goals simp only [top_exit_pipeline, top_exit_quality, top_exit_done, exit_dir2rad,
      exit_dftwaves, exit_dftgrids, exit_pad, exit_malloc, exit_maps,
      exit_nobinarize, exit_dirbingrids, exit_binarize, exit_binarized, prepTrace, mapsTrace,
      hp, if_true, if_false]
  all_goals simp_all [ledger, State.init]

/-- What a failing `lfs_detect_minutiae_V2_getmaps` leaves in its output
slots: their old values when the failure is at or before map generation;
when it is in one of the two binarization stages, the six map slots as
written at lines 115-120, whose four pointers have all been released. -/
theorem lfs_detect_failure_slots {D W R : Type} (C : Collab D W R) (o : Slots)
    (idata : List Nat) (iw ih : Int) (lfsparms : LFSPARMS) (binarize : Int) (n : Nat)
    (hret : (lfs_detect_minutiae_V2_getmaps C o idata iw ih lfsparms binarize
      (State.init n)).ret ≠ 0) :
    (lfs_detect_minutiae_V2_getmaps C o idata iw ih lfsparms binarize
      (State.init n)).slots = o ∨
    (binarize ≠ 0 ∧ (mapsOf C idata iw ih lfsparms).1 = 0 ∧
      (lfs_detect_minutiae_V2_getmaps C o idata iw ih lfsparms binarize
        (State.init n)).slots = mapSlots C o idata iw ih lfsparms n ∧
      ∀ a ∈ [n + 4, n + 5, n + 6, n + 7],
        a ∈ releasedAddrs (lfs_detect_minutiae_V2_getmaps C o idata iw ih lfsparms binarize
          (State.init n)).st.trace) := by
  revert hret
  refine lfs_detect_minutiae_V2_getmaps_cases
    (fun r => r.ret ≠ 0 → (r.slots = o ∨
      (binarize ≠ 0 ∧ (mapsOf C idata iw ih lfsparms).1 = 0 ∧
        r.slots = mapSlots C o idata iw ih lfsparms n ∧
        ∀ a ∈ [n + 4, n + 5, n + 6, n + 7], a ∈ releasedAddrs r.st.trace)))
    C o idata iw ih lfsparms binarize (State.init n) ?_ ?_ ?_ ?_ ?_ ?_ ?_ ?_ ?_ ?_
  all_goals intros
  all_goals by_cases hp : maxpadOf C lfsparms > 0
  all_goals simp only [exit_dir2rad,
      exit_dftwaves, exit_dftgrids, exit_pad, exit_malloc, exit_maps,
      exit_nobinarize, exit_dirbingrids, exit_binarize, exit_binarized, prepTrace, mapsTrace,
      hp, if_true, if_false]
  all_goals simp_all [releasedAddrs, State.init]

/-! ## Theorems -/

/-- C1: a call of `get_maps` whose sample depth `id` is not 8 returns -2,
leaves all ten output slots as they were, acquires nothing (the allocator
counter is unchanged) and adds nothing to the trace but the two diagnostic
`fprintf`s: no collaborator call, no acquisition, no release. -/
theorem get_maps_depth_mismatch {D W R : Type} (C : Collab D W R) (o : Outputs)
    (locals : Slots) (idata : List Nat) (iw ih id : Int) (ppmm : Nat) (lfsparms : LFSPARMS)
    (binarize : Int) (s : State) (hid : id ≠ 8) :
    (get_maps C o locals idata iw ih id ppmm lfsparms binarize s).ret = -2 ∧
    (get_maps C o locals idata iw ih id ppmm lfsparms binarize s).outs = o ∧
    (get_maps C o locals idata iw ih id ppmm lfsparms binarize s).st.next = s.next ∧
    (get_maps C o locals idata iw ih id ppmm lfsparms binarize s).st.trace
      = s.trace ++ [Event.fprintf, Event.fprintf] := by
  simp [get_maps, hid, State.emit]

/-- Witness for C1: the spec's scenario, sample depth given as 1. -/
theorem get_maps_depth_mismatch_witness :
    (1 : Int) ≠ 8 ∧
    (get_maps (refCollab 1 0 0) nullOutputs nullSlots [10, 20, 30, 40] 2 2 1 0 refParms 1
      (State.init 1)).ret = -2 ∧
    (get_maps (refCollab 1 0 0) nullOutputs nullSlots [10, 20, 30, 40] 2 2 1 0 refParms 1
      (State.init 1)).outs = nullOutputs ∧
    (get_maps (refCollab 1 0 0) nullOutputs nullSlots [10, 20, 30, 40] 2 2 1 0 refParms 1
      (State.init 1)).st.next = (State.init 1).next ∧
    (get_maps (refCollab 1 0 0) nullOutputs nullSlots [10, 20, 30, 40] 2 2 1 0 refParms 1
      (State.init 1)).st.trace = (State.init 1).trace ++ [Event.fprintf, Event.fprintf] :=
  ⟨by decide,
   get_maps_depth_mismatch (refCollab 1 0 0) nullOutputs nullSlots [10, 20, 30, 40] 2 2 1 0
     refParms 1 (State.init 1) (by decide)⟩

/-- C2: on every exit path of `lfs_detect_minutiae_V2_getmaps` the replay of
the trace succeeds (every release names a resource that was acquired for the
matching deallocator and is still live, so nothing is released twice and
nothing unacquired is released); no address is acquired twice or released
twice; on a failure exit nothing is left live; on a success exit exactly the
four block maps held by the output slots are live, followed by the binarized
image when `binarize` is non-zero. -/
theorem lfs_detect_release_discipline {D W R : Type} (C : Collab D W R) (o : Slots)
    (idata : List Nat) (iw ih : Int) (lfsparms : LFSPARMS) (binarize : Int) (n : Nat) :
    ledger (lfs_detect_minutiae_V2_getmaps C o idata iw ih lfsparms binarize
        (State.init n)).st.trace [] =
      some
        (if (lfs_detect_minutiae_V2_getmaps C o idata iw ih lfsparms binarize
              (State.init n)).ret ≠ 0 then []
         else
          [(Kind.mem, (lfs_detect_minutiae_V2_getmaps C o idata iw ih lfsparms binarize
              (State.init n)).slots.odmap.addr),
           (Kind.mem, (lfs_detect_minutiae_V2_getmaps C o idata iw ih lfsparms binarize
              (State.init n)).slots.olcmap.addr),
           (Kind.mem, (lfs_detect_minutiae_V2_getmaps C o idata iw ih lfsparms binarize
              (State.init n)).slots.olfmap.addr),
           (Kind.mem, (lfs_detect_minutiae_V2_getmaps C o idata iw ih lfsparms binarize
              (State.init n)).slots.ohcmap.addr)] ++
          (if binarize = 0 then []
           else [(Kind.mem, (lfs_detect_minutiae_V2_getmaps C o idata iw ih lfsparms binarize
              (State.init n)).slots.obdata.addr)])) ∧
    (acquiredAddrs (lfs_detect_minutiae_V2_getmaps C o idata iw ih lfsparms binarize
        (State.init n)).st.trace).Nodup ∧
    (releasedAddrs (lfs_detect_minutiae_V2_getmaps C o idata iw ih lfsparms binarize
        (State.init n)).st.trace).Nodup := by
  refine lfs_detect_minutiae_V2_getmaps_cases
    (fun r => ledger r.st.trace [] = some (if r.ret ≠ 0 then [] else
      [(Kind.mem, r.slots.odmap.addr), (Kind.mem, r.slots.olcmap.addr),
       (Kind.mem, r.slots.olfmap.addr), (Kind.mem, r.slots.ohcmap.addr)] ++
      (if binarize = 0 then [] else [(Kind.mem, r.slots.obdata.addr)])) ∧
      (acquiredAddrs r.st.trace).Nodup ∧ (releasedAddrs r.st.trace).Nodup)
    C o idata iw ih lfsparms binarize (State.init n) ?_ ?_ ?_ ?_ ?_ ?_ ?_ ?_ ?_ ?_
  all_goals intros
  all_goals simp [exit_dir2rad, exit_dftwaves, exit_dftgrids, exit_pad, exit_malloc, exit_maps,
      exit_nobinarize, exit_dirbingrids, exit_binarize, exit_binarized, prepTrace, mapsTrace,
      mapSlots, ledger, acquiredAddrs, releasedAddrs, State.init, *]
  all_goals split_ifs <;> simp [ledger, acquiredAddrs, releasedAddrs]

/-- C3 (the code at the failing input): with `id = 8`, `binarize = 1`, every
pipeline stage succeeding and `gen_quality_map` returning -3, `get_maps`
returns -3 with the caller's slots untouched, and the replay of its trace
leaves one resource live: the buffer at address 10, which is the binarized
image (the buffer `binarize_V2` acquired and `gray2bin` rewrote).  It is
released nowhere and reaches no output slot. -/
theorem get_maps_quality_failure_leaks_bdata :
    (get_maps (refCollab 1 0 (-3)) nullOutputs nullSlots [10, 20, 30, 40] 2 2 8 0 refParms 1
      (State.init 1)).ret = -3 ∧
    (get_maps (refCollab 1 0 (-3)) nullOutputs nullSlots [10, 20, 30, 40] 2 2 8 0 refParms 1
      (State.init 1)).outs = nullOutputs ∧
    ledger (get_maps (refCollab 1 0 (-3)) nullOutputs nullSlots [10, 20, 30, 40] 2 2 8 0
      refParms 1 (State.init 1)).st.trace [] = some [(Kind.mem, 10)] ∧
    Event.gray2bin 1 1 0 10 2 2 ∈
      (get_maps (refCollab 1 0 (-3)) nullOutputs nullSlots [10, 20, 30, 40] 2 2 8 0 refParms 1
        (State.init 1)).st.trace ∧
    10 ∉ releasedAddrs (get_maps (refCollab 1 0 (-3)) nullOutputs nullSlots [10, 20, 30, 40]
      2 2 8 0 refParms 1 (State.init 1)).st.trace := by
  decide

/-- C4: in `get_maps` with `id = 8` the invoked stages are the first `k + 1`
stages of the fixed order (angle table, wave table, map grid-offset table,
padding or duplication, map generation, then with `binarize` non-zero the
binarization grid-offset table and binarization, then quality synthesis); the
first `k` of them returned 0 and the last returned exactly the value
`get_maps` returns (a failed duplication counting as -580); if that value is
0 the whole order was run; and it is 0 exactly when every invoked stage
returned 0. -/
theorem get_maps_returns_first_failure {D W R : Type} (C : Collab D W R) (o : Outputs)
    (locals : Slots) (idata : List Nat) (iw ih : Int) (ppmm : Nat) (lfsparms : LFSPARMS)
    (binarize : Int) (n : Nat) :
    ∃ k, k < (stageOrder (maxpadOf C lfsparms) binarize).length ∧
      (stageLog (get_maps C o locals idata iw ih 8 ppmm lfsparms binarize
          (State.init n)).st.trace).map Prod.fst =
        (stageOrder (maxpadOf C lfsparms) binarize).take (k + 1) ∧
      (stageLog (get_maps C o locals idata iw ih 8 ppmm lfsparms binarize
          (State.init n)).st.trace).map Prod.snd =
        List.replicate k 0 ++
          [(get_maps C o locals idata iw ih 8 ppmm lfsparms binarize (State.init n)).ret] ∧
      ((get_maps C o locals idata iw ih 8 ppmm lfsparms binarize (State.init n)).ret = 0 →
        k + 1 = (stageOrder (maxpadOf C lfsparms) binarize).length) ∧
      ((get_maps C o locals idata iw ih 8 ppmm lfsparms binarize (State.init n)).ret = 0 ↔
        ∀ x ∈ stageLog (get_maps C o locals idata iw ih 8 ppmm lfsparms binarize
          (State.init n)).st.trace, x.2 = 0) := by
  refine get_maps_cases
    (fun r => ∃ k, k < (stageOrder (maxpadOf C lfsparms) binarize).length ∧
      (stageLog r.st.trace).map Prod.fst =
        (stageOrder (maxpadOf C lfsparms) binarize).take (k + 1) ∧
      (stageLog r.st.trace).map Prod.snd = List.replicate k 0 ++ [r.ret] ∧
      (r.ret = 0 → k + 1 = (stageOrder (maxpadOf C lfsparms) binarize).length) ∧
      (r.ret = 0 ↔ ∀ x ∈ stageLog r.st.trace, x.2 = 0))
    C o locals idata iw ih ppmm lfsparms binarize (State.init n)
    ?_ ?_ ?_ ?_ ?_ ?_ ?_ ?_ ?_ ?_ ?_ ?_
  · intro h
    refine ⟨0, ?_⟩
    by_cases hb : binarize = 0 <;>
      simp [top_exit_pipeline, exit_dir2rad, stageLog, stageOrder, Call.stage, State.init, h, hb]
  · intro h
    refine ⟨1, ?_⟩
    by_cases hb : binarize = 0 <;>
      simp [top_exit_pipeline, exit_dftwaves, stageLog, stageOrder, Call.stage, State.init, h, hb]
  · intro h
    refine ⟨2, ?_⟩
    by_cases hb : binarize = 0 <;>
      simp [top_exit_pipeline, exit_dftgrids, stageLog, stageOrder, Call.stage, State.init, h, hb]
  · intro hp h
    refine ⟨3, ?_⟩
    by_cases hb : binarize = 0 <;>
      simp [top_exit_pipeline, exit_pad, stageLog, stageOrder, Call.stage, State.init, h, hb, hp]
  · intro hp h
    refine ⟨3, ?_⟩
    by_cases hb : binarize = 0 <;>
      simp [top_exit_pipeline, exit_malloc, stageLog, stageOrder, Call.stage, State.init, h, hb,
        hp]
  · intro h
    refine ⟨4, ?_⟩
    by_cases hb : binarize = 0 <;> by_cases hp : maxpadOf C lfsparms > 0 <;>
      simp [top_exit_pipeline, exit_maps, prepTrace, stageLog, stageOrder, Call.stage,
        State.init, h, hb, hp]
  · intro _ hb h
    refine ⟨5, ?_⟩
    by_cases hp : maxpadOf C lfsparms > 0 <;>
      simp [top_exit_pipeline, exit_dirbingrids, prepTrace, mapsTrace, dirbinCall, stageLog,
        stageOrder, Call.stage, State.init, h, hb, hp]
  · intro _ hb h
    refine ⟨6, ?_⟩
    by_cases hp : maxpadOf C lfsparms > 0 <;>
      simp [top_exit_pipeline, exit_binarize, prepTrace, mapsTrace, dirbinCall, binarizeCall,
        stageLog, stageOrder, Call.stage, State.init, h, hb, hp]
  · intro _ hb h
    refine ⟨5, ?_⟩
    by_cases hp : maxpadOf C lfsparms > 0 <;>
      simp [top_exit_quality, exit_nobinarize, prepTrace, mapsTrace, qualityCall, stageLog,
        stageOrder, Call.stage, State.init, h, hb, hp]
  · intro _ hb _ h
    refine ⟨7, ?_⟩
    by_cases hp : maxpadOf C lfsparms > 0 <;>
      simp [top_exit_quality, exit_binarized, prepTrace, mapsTrace, dirbinCall, binarizeCall,
        qualityCall, stageLog, stageOrder, Call.stage, State.init, h, hb, hp]
  · intro _ hb h
    refine ⟨5, ?_⟩
    by_cases hp : maxpadOf C lfsparms > 0 <;>
      simp [top_exit_done, exit_nobinarize, prepTrace, mapsTrace, qualityCall, stageLog,
        stageOrder, Call.stage, State.init, hb, hp]
  · intro _ hb _ h
    refine ⟨7, ?_⟩
    by_cases hp : maxpadOf C lfsparms > 0 <;>
      simp [top_exit_done, exit_binarized, prepTrace, mapsTrace, dirbinCall, binarizeCall,
        qualityCall, stageLog, stageOrder, Call.stage, State.init, hb, hp]


/-- C5: when `get_maps` returns a non-zero code, whatever `id` is, the ten
output slots are exactly as they were before the call; when it returns 0, the
quality-map slot and the four block-map slots hold the maps that quality
synthesis and map generation produced, the block-grid slots hold the
dimensions map generation produced, and the resources live at the end are
exactly those the pointer slots refer to. -/
theorem get_maps_outputs_all_or_nothing {D W R : Type} (C : Collab D W R) (o : Outputs)
    (locals : Slots) (idata : List Nat) (iw ih id : Int) (ppmm : Nat) (lfsparms : LFSPARMS)
    (binarize : Int) (n : Nat) :
    ((get_maps C o locals idata iw ih id ppmm lfsparms binarize (State.init n)).ret ≠ 0 →
      (get_maps C o locals idata iw ih id ppmm lfsparms binarize (State.init n)).outs = o) ∧
    ((get_maps C o locals idata iw ih id ppmm lfsparms binarize (State.init n)).ret = 0 →
      (get_maps C o locals idata iw ih id ppmm lfsparms binarize
        (State.init n)).outs.oquality_map.obj = (qualityOf C idata iw ih lfsparms).2 ∧
      (get_maps C o locals idata iw ih id ppmm lfsparms binarize
        (State.init n)).outs.odirection_map.obj =
          (mapsOf C idata iw ih lfsparms).2.direction_map ∧
      (get_maps C o locals idata iw ih id ppmm lfsparms binarize
        (State.init n)).outs.olow_contrast_map.obj =
          (mapsOf C idata iw ih lfsparms).2.low_contrast_map ∧
      (get_maps C o locals idata iw ih id ppmm lfsparms binarize
        (State.init n)).outs.olow_flow_map.obj =
          (mapsOf C idata iw ih lfsparms).2.low_flow_map ∧
      (get_maps C o locals idata iw ih id ppmm lfsparms binarize
        (State.init n)).outs.ohigh_curve_map.obj =
          (mapsOf C idata iw ih lfsparms).2.high_curve_map ∧
      (get_maps C o locals idata iw ih id ppmm lfsparms binarize
        (State.init n)).outs.omap_w = (mapsOf C idata iw ih lfsparms).2.mw ∧
      (get_maps C o locals idata iw ih id ppmm lfsparms binarize
        (State.init n)).outs.omap_h = (mapsOf C idata iw ih lfsparms).2.mh ∧
      ledger (get_maps C o locals idata iw ih id ppmm lfsparms binarize
        (State.init n)).st.trace [] =
        some ([(Kind.mem, (get_maps C o locals idata iw ih id ppmm lfsparms binarize
                 (State.init n)).outs.odirection_map.addr),
               (Kind.mem, (get_maps C o locals idata iw ih id ppmm lfsparms binarize
                 (State.init n)).outs.olow_contrast_map.addr),
               (Kind.mem, (get_maps C o locals idata iw ih id ppmm lfsparms binarize
                 (State.init n)).outs.olow_flow_map.addr),
               (Kind.mem, (get_maps C o locals idata iw ih id ppmm lfsparms binarize
                 (State.init n)).outs.ohigh_curve_map.addr)] ++
              (if binarize = 0 then []
               else [(Kind.mem, (get_maps C o locals idata iw ih id ppmm lfsparms binarize
                 (State.init n)).outs.obdata.addr)]) ++
              [(Kind.mem, (get_maps C o locals idata iw ih id ppmm lfsparms binarize
                 (State.init n)).outs.oquality_map.addr)])) := by
  by_cases hid : id = 8
  swap
  · simp [get_maps, hid]
  subst hid
  refine get_maps_cases
    (fun r => (r.ret ≠ 0 → r.outs = o) ∧
      (r.ret = 0 →
        r.outs.oquality_map.obj = (qualityOf C idata iw ih lfsparms).2 ∧
        r.outs.odirection_map.obj = (mapsOf C idata iw ih lfsparms).2.direction_map ∧
        r.outs.olow_contrast_map.obj = (mapsOf C idata iw ih lfsparms).2.low_contrast_map ∧
        r.outs.olow_flow_map.obj = (mapsOf C idata iw ih lfsparms).2.low_flow_map ∧
        r.outs.ohigh_curve_map.obj = (mapsOf C idata iw ih lfsparms).2.high_curve_map ∧
        r.outs.omap_w = (mapsOf C idata iw ih lfsparms).2.mw ∧
        r.outs.omap_h = (mapsOf C idata iw ih lfsparms).2.mh ∧
        ledger r.st.trace [] =
          some ([(Kind.mem, r.outs.odirection_map.addr),
                 (Kind.mem, r.outs.olow_contrast_map.addr),
                 (Kind.mem, r.outs.olow_flow_map.addr),
                 (Kind.mem, r.outs.ohigh_curve_map.addr)] ++
                (if binarize = 0 then [] else [(Kind.mem, r.outs.obdata.addr)]) ++
                [(Kind.mem, r.outs.oquality_map.addr)])))
    C o locals idata iw ih ppmm lfsparms binarize (State.init n)
    ?_ ?_ ?_ ?_ ?_ ?_ ?_ ?_ ?_ ?_ ?_ ?_
  all_goals intros
  all_goals simp [top_exit_pipeline, top_exit_quality, top_exit_done, exit_dir2rad,
      exit_dftwaves, exit_dftgrids, exit_pad, exit_malloc, exit_maps,
      exit_nobinarize, exit_dirbingrids, exit_binarize, exit_binarized, prepTrace, mapsTrace,
      mapSlots, ledger, State.init, *]
  all_goals split_ifs <;> simp [ledger]

/-- C6 (the code at the failing input): with `binarize = 1`, map generation
succeeding and the binarization grid-offset build returning -7,
`lfs_detect_minutiae_V2_getmaps` returns -7 although it has written its six
map slots: the direction-map slot no longer holds its old value, it holds
address 5, and that address, like those in the other three map slots, has
been released.  The three binarized-image slots are as before. -/
theorem lfs_detect_failure_leaves_written_slots :
    (lfs_detect_minutiae_V2_getmaps (refCollab 1 (-7) 0) nullSlots [10, 20, 30, 40] 2 2
      refParms 1 (State.init 1)).ret = -7 ∧
    (lfs_detect_minutiae_V2_getmaps (refCollab 1 (-7) 0) nullSlots [10, 20, 30, 40] 2 2
      refParms 1 (State.init 1)).slots ≠ nullSlots ∧
    (lfs_detect_minutiae_V2_getmaps (refCollab 1 (-7) 0) nullSlots [10, 20, 30, 40] 2 2
      refParms 1 (State.init 1)).slots =
        ⟨⟨5, [0]⟩, ⟨6, [0]⟩, ⟨7, [0]⟩, ⟨8, [0]⟩, 1, 1, ⟨0, []⟩, 0, 0⟩ ∧
    releasedAddrs (lfs_detect_minutiae_V2_getmaps (refCollab 1 (-7) 0) nullSlots
      [10, 20, 30, 40] 2 2 refParms 1 (State.init 1)).st.trace = [1, 2, 3, 4, 5, 6, 7, 8] := by
  decide

/-- On a successful call of `lfs_detect_minutiae_V2_getmaps` with `binarize`
non-zero, the width and height handed back are those `binarize_V2` produced,
unchanged, and the image handed back is the one it produced after
`gray2bin(1, 1, 0, bdata, iw, ih)`: the function itself never changes the
size of the image. -/
theorem lfs_detect_binarized_pass_through {D W R : Type} (C : Collab D W R) (o : Slots)
    (idata : List Nat) (iw ih : Int) (lfsparms : LFSPARMS) (binarize : Int) (n : Nat)
    (hb : binarize ≠ 0)
    (hret : (lfs_detect_minutiae_V2_getmaps C o idata iw ih lfsparms binarize
      (State.init n)).ret = 0) :
    (lfs_detect_minutiae_V2_getmaps C o idata iw ih lfsparms binarize
      (State.init n)).slots.obw = (binarizedOf C idata iw ih lfsparms).2.w ∧
    (lfs_detect_minutiae_V2_getmaps C o idata iw ih lfsparms binarize
      (State.init n)).slots.obh = (binarizedOf C idata iw ih lfsparms).2.h ∧
    (lfs_detect_minutiae_V2_getmaps C o idata iw ih lfsparms binarize
      (State.init n)).slots.obdata.obj =
        C.gray2bin 1 1 0 (binarizedOf C idata iw ih lfsparms).2.data iw ih ∧
    (binarizedOf C idata iw ih lfsparms).1 = 0 := by
  revert hret
  refine lfs_detect_minutiae_V2_getmaps_cases
    (fun r => r.ret = 0 →
      r.slots.obw = (binarizedOf C idata iw ih lfsparms).2.w ∧
      r.slots.obh = (binarizedOf C idata iw ih lfsparms).2.h ∧
      r.slots.obdata.obj = C.gray2bin 1 1 0 (binarizedOf C idata iw ih lfsparms).2.data iw ih ∧
      (binarizedOf C idata iw ih lfsparms).1 = 0)
    C o idata iw ih lfsparms binarize (State.init n) ?_ ?_ ?_ ?_ ?_ ?_ ?_ ?_ ?_ ?_
  all_goals intros
  all_goals simp_all [exit_dir2rad, exit_dftwaves, exit_dftgrids, exit_pad, exit_malloc,
    exit_maps, exit_nobinarize, exit_dirbingrids, exit_binarize, exit_binarized]

/-- With a `binarize_V2` that works at the padded resolution, a successful
call with `binarize` non-zero hands back the working buffer's `pw` and `ph`,
which are `iw` and `ih` when the margin is not positive. -/
theorem lfs_detect_binarized_dims_padded {D W R : Type} (C : Collab D W R) (o : Slots)
    (idata : List Nat) (iw ih : Int) (lfsparms : LFSPARMS) (binarize : Int) (n : Nat)
    (hspec : BinarizesAtPaddedResolution C) (hb : binarize ≠ 0)
    (hret : (lfs_detect_minutiae_V2_getmaps C o idata iw ih lfsparms binarize
      (State.init n)).ret = 0) :
    (lfs_detect_minutiae_V2_getmaps C o idata iw ih lfsparms binarize
      (State.init n)).slots.obw = (workingBuffer C idata iw ih lfsparms).w ∧
    (lfs_detect_minutiae_V2_getmaps C o idata iw ih lfsparms binarize
      (State.init n)).slots.obh = (workingBuffer C idata iw ih lfsparms).h ∧
    (¬ maxpadOf C lfsparms > 0 →
      (workingBuffer C idata iw ih lfsparms).w = iw ∧
      (workingBuffer C idata iw ih lfsparms).h = ih) := by
  obtain ⟨hw, hh, _, hz⟩ :=
    lfs_detect_binarized_pass_through C o idata iw ih lfsparms binarize n hb hret
  have h := hspec _ _ _ _ _ _ _ _ hz
  refine ⟨hw.trans h.1, hh.trans h.2.1, ?_⟩
  intro hp
  simp [workingBuffer, hp]

/-- With a `binarize_V2` that itself hands back an image of the original
`iw x ih` (the margin stripped inside binarization), a successful call with
`binarize` non-zero hands back exactly `iw` and `ih`. -/
theorem lfs_detect_binarized_dims_stripped {D W R : Type} (C : Collab D W R) (o : Slots)
    (idata : List Nat) (iw ih : Int) (lfsparms : LFSPARMS) (binarize : Int) (n : Nat)
    (hw : (binarizedOf C idata iw ih lfsparms).2.w = iw)
    (hh : (binarizedOf C idata iw ih lfsparms).2.h = ih) (hb : binarize ≠ 0)
    (hret : (lfs_detect_minutiae_V2_getmaps C o idata iw ih lfsparms binarize
      (State.init n)).ret = 0) :
    (lfs_detect_minutiae_V2_getmaps C o idata iw ih lfsparms binarize
      (State.init n)).slots.obw = iw ∧
    (lfs_detect_minutiae_V2_getmaps C o idata iw ih lfsparms binarize
      (State.init n)).slots.obh = ih := by
  obtain ⟨h1, h2, _, _⟩ :=
    lfs_detect_binarized_pass_through C o idata iw ih lfsparms binarize n hb hret
  exact ⟨h1.trans hw, h2.trans hh⟩

/-- C8: in `get_maps` with `id = 8`: when `binarize` is 0, neither the
binarization grid-offset build nor `binarize_V2` is among the invoked stages,
and on success the three binarized-image slots receive the initial
(indeterminate) values of the locals `bdata`, `bw`, `bh`, nothing produced
during the call; when `binarize` is non-zero, on success they receive the
image `binarize_V2` produced after `gray2bin(1, 1, 0, bdata, iw, ih)` and the
width and height it produced, and the image is a buffer acquired in the call,
rewritten by `gray2bin` and not released. -/
theorem get_maps_binarized_iff_requested {D W R : Type} (C : Collab D W R) (o : Outputs)
    (locals : Slots) (idata : List Nat) (iw ih : Int) (ppmm : Nat) (lfsparms : LFSPARMS)
    (binarize : Int) (n : Nat) :
    (binarize = 0 →
      Stage.init_rotgrids Relative2.RELATIVE2CENTER ∉
        (stageLog (get_maps C o locals idata iw ih 8 ppmm lfsparms binarize
          (State.init n)).st.trace).map Prod.fst ∧
      Stage.binarize_V2 ∉
        (stageLog (get_maps C o locals idata iw ih 8 ppmm lfsparms binarize
          (State.init n)).st.trace).map Prod.fst ∧
      ((get_maps C o locals idata iw ih 8 ppmm lfsparms binarize (State.init n)).ret = 0 →
        (get_maps C o locals idata iw ih 8 ppmm lfsparms binarize (State.init n)).outs.obdata =
          locals.obdata ∧
        (get_maps C o locals idata iw ih 8 ppmm lfsparms binarize (State.init n)).outs.obw =
          locals.obw ∧
        (get_maps C o locals idata iw ih 8 ppmm lfsparms binarize (State.init n)).outs.obh =
          locals.obh)) ∧
    (binarize ≠ 0 →
      (get_maps C o locals idata iw ih 8 ppmm lfsparms binarize (State.init n)).ret = 0 →
        (get_maps C o locals idata iw ih 8 ppmm lfsparms binarize
          (State.init n)).outs.obdata.obj =
            C.gray2bin 1 1 0 (binarizedOf C idata iw ih lfsparms).2.data iw ih ∧
        (get_maps C o locals idata iw ih 8 ppmm lfsparms binarize (State.init n)).outs.obw =
          (binarizedOf C idata iw ih lfsparms).2.w ∧
        (get_maps C o locals idata iw ih 8 ppmm lfsparms binarize (State.init n)).outs.obh =
          (binarizedOf C idata iw ih lfsparms).2.h ∧
        Event.acquire Kind.mem
          (get_maps C o locals idata iw ih 8 ppmm lfsparms binarize
            (State.init n)).outs.obdata.addr ∈
          (get_maps C o locals idata iw ih 8 ppmm lfsparms binarize (State.init n)).st.trace ∧
        Event.gray2bin 1 1 0
          (get_maps C o locals idata iw ih 8 ppmm lfsparms binarize
            (State.init n)).outs.obdata.addr iw ih ∈
          (get_maps C o locals idata iw ih 8 ppmm lfsparms binarize (State.init n)).st.trace ∧
        (get_maps C o locals idata iw ih 8 ppmm lfsparms binarize
            (State.init n)).outs.obdata.addr ∉
          releasedAddrs
            (get_maps C o locals idata iw ih 8 ppmm lfsparms binarize
              (State.init n)).st.trace) := by
  refine get_maps_cases
    (fun r =>
      (binarize = 0 →
        Stage.init_rotgrids Relative2.RELATIVE2CENTER ∉ (stageLog r.st.trace).map Prod.fst ∧
        Stage.binarize_V2 ∉ (stageLog r.st.trace).map Prod.fst ∧
        (r.ret = 0 → r.outs.obdata = locals.obdata ∧ r.outs.obw = locals.obw ∧
          r.outs.obh = locals.obh)) ∧
      (binarize ≠ 0 → r.ret = 0 →
        r.outs.obdata.obj = C.gray2bin 1 1 0 (binarizedOf C idata iw ih lfsparms).2.data iw ih ∧
        r.outs.obw = (binarizedOf C idata iw ih lfsparms).2.w ∧
        r.outs.obh = (binarizedOf C idata iw ih lfsparms).2.h ∧
        Event.acquire Kind.mem r.outs.obdata.addr ∈ r.st.trace ∧
        Event.gray2bin 1 1 0 r.outs.obdata.addr iw ih ∈ r.st.trace ∧
        r.outs.obdata.addr ∉ releasedAddrs r.st.trace))
    C o locals idata iw ih ppmm lfsparms binarize (State.init n)
    ?_ ?_ ?_ ?_ ?_ ?_ ?_ ?_ ?_ ?_ ?_ ?_
  all_goals intros
  all_goals by_cases hp : maxpadOf C lfsparms > 0
  all_goals simp [top_exit_pipeline, top_exit_quality, top_exit_done, exit_dir2rad,
      exit_dftwaves, exit_dftgrids, exit_pad, exit_malloc, exit_maps,
      exit_nobinarize, exit_dirbingrids, exit_binarize, exit_binarized, prepTrace, mapsTrace,
      mapSlots, dirbinCall, binarizeCall, qualityCall, stageLog, Call.stage, releasedAddrs,
      State.init, *]

/-- C9: when `get_maps` (with `id = 8`) succeeds, the block-grid width and
height handed to the caller are the pair `gen_image_maps` produced when run
on the rescaled working buffer and its dimensions `pw x ph`; `gen_image_maps`
was called once, with exactly those dimensions; `gen_quality_map` was called
once, with the pair handed to the caller; and `binarize_V2` was called with
that same pair, once when `binarize` is non-zero and not at all otherwise. -/
theorem get_maps_block_grid_dims {D W R : Type} (C : Collab D W R) (o : Outputs)
    (locals : Slots) (idata : List Nat) (iw ih : Int) (ppmm : Nat) (lfsparms : LFSPARMS)
    (binarize : Int) (n : Nat)
    (hret : (get_maps C o locals idata iw ih 8 ppmm lfsparms binarize (State.init n)).ret = 0) :
    (get_maps C o locals idata iw ih 8 ppmm lfsparms binarize (State.init n)).outs.omap_w =
      (C.gen_image_maps (rescaledBuffer C idata iw ih lfsparms)
        (workingBuffer C idata iw ih lfsparms).w (workingBuffer C idata iw ih lfsparms).h
        (dir2radOf C lfsparms).2 (dftwavesOf C lfsparms).2 (dftgridsOf C iw ih lfsparms).2
        lfsparms).2.mw ∧
    (get_maps C o locals idata iw ih 8 ppmm lfsparms binarize (State.init n)).outs.omap_h =
      (C.gen_image_maps (rescaledBuffer C idata iw ih lfsparms)
        (workingBuffer C idata iw ih lfsparms).w (workingBuffer C idata iw ih lfsparms).h
        (dir2radOf C lfsparms).2 (dftwavesOf C lfsparms).2 (dftgridsOf C iw ih lfsparms).2
        lfsparms).2.mh ∧
    (mapgenArgs (get_maps C o locals idata iw ih 8 ppmm lfsparms binarize
        (State.init n)).st.trace).map (fun a => (a.2.2.1, a.2.2.2)) =
      [((workingBuffer C idata iw ih lfsparms).w, (workingBuffer C idata iw ih lfsparms).h)] ∧
    qualityDims (get_maps C o locals idata iw ih 8 ppmm lfsparms binarize
        (State.init n)).st.trace =
      [((get_maps C o locals idata iw ih 8 ppmm lfsparms binarize (State.init n)).outs.omap_w,
        (get_maps C o locals idata iw ih 8 ppmm lfsparms binarize (State.init n)).outs.omap_h)] ∧
    binarizeDims (get_maps C o locals idata iw ih 8 ppmm lfsparms binarize
        (State.init n)).st.trace =
      (if binarize = 0 then []
       else
        [((get_maps C o locals idata iw ih 8 ppmm lfsparms binarize
            (State.init n)).outs.omap_w,
          (get_maps C o locals idata iw ih 8 ppmm lfsparms binarize
            (State.init n)).outs.omap_h)]) := by
  revert hret
  refine get_maps_cases
    (fun r => r.ret = 0 →
      r.outs.omap_w = (C.gen_image_maps (rescaledBuffer C idata iw ih lfsparms)
        (workingBuffer C idata iw ih lfsparms).w (workingBuffer C idata iw ih lfsparms).h
        (dir2radOf C lfsparms).2 (dftwavesOf C lfsparms).2 (dftgridsOf C iw ih lfsparms).2
        lfsparms).2.mw ∧
      r.outs.omap_h = (C.gen_image_maps (rescaledBuffer C idata iw ih lfsparms)
        (workingBuffer C idata iw ih lfsparms).w (workingBuffer C idata iw ih lfsparms).h
        (dir2radOf C lfsparms).2 (dftwavesOf C lfsparms).2 (dftgridsOf C iw ih lfsparms).2
        lfsparms).2.mh ∧
      (mapgenArgs r.st.trace).map (fun a => (a.2.2.1, a.2.2.2)) =
        [((workingBuffer C idata iw ih lfsparms).w, (workingBuffer C idata iw ih lfsparms).h)] ∧
      qualityDims r.st.trace = [(r.outs.omap_w, r.outs.omap_h)] ∧
      binarizeDims r.st.trace =
        (if binarize = 0 then [] else [(r.outs.omap_w, r.outs.omap_h)]))
    C o locals idata iw ih ppmm lfsparms binarize (State.init n)
    ?_ ?_ ?_ ?_ ?_ ?_ ?_ ?_ ?_ ?_ ?_ ?_
  all_goals intros
  all_goals by_cases hp : maxpadOf C lfsparms > 0
  all_goals simp only [top_exit_pipeline, top_exit_quality, top_exit_done, exit_dir2rad,
      exit_dftwaves, exit_dftgrids, exit_pad, exit_malloc, exit_maps,
      exit_nobinarize, exit_dirbingrids, exit_binarize, exit_binarized, prepTrace, mapsTrace,
      hp, if_true, if_false]
  all_goals simp_all [top_exit_pipeline, top_exit_quality, top_exit_done, exit_dir2rad,
      exit_dftwaves, exit_dftgrids, exit_pad, exit_malloc, exit_maps,
      exit_nobinarize, exit_dirbingrids, exit_binarize, exit_binarized, prepTrace, mapsTrace,
      mapSlots, dirbinCall, binarizeCall, qualityCall, mapgenArgs, qualityDims, binarizeDims,
      mapsOf, State.init]

/-- Witness for C9: the 2 x 2 image with margin 1 and `binarize = 1`; the call
succeeds, and the 4 x 4 working buffer gives a 1 x 1 block grid. -/
theorem get_maps_block_grid_dims_witness :
    (get_maps (refCollab 1 0 0) nullOutputs nullSlots [10, 20, 30, 40] 2 2 8 0 refParms 1
      (State.init 1)).ret = 0 ∧
    qualityDims (get_maps (refCollab 1 0 0) nullOutputs nullSlots [10, 20, 30, 40] 2 2 8 0
        refParms 1 (State.init 1)).st.trace =
      [((get_maps (refCollab 1 0 0) nullOutputs nullSlots [10, 20, 30, 40] 2 2 8 0 refParms 1
          (State.init 1)).outs.omap_w,
        (get_maps (refCollab 1 0 0) nullOutputs nullSlots [10, 20, 30, 40] 2 2 8 0 refParms 1
          (State.init 1)).outs.omap_h)] ∧
    (get_maps (refCollab 1 0 0) nullOutputs nullSlots [10, 20, 30, 40] 2 2 8 0 refParms 1
      (State.init 1)).outs.omap_w = 1 :=
  ⟨by decide,
   (get_maps_block_grid_dims (refCollab 1 0 0) nullOutputs nullSlots [10, 20, 30, 40] 2 2 0
     refParms 1 1 (by decide)).2.2.2.1,
   by decide⟩

end Getmaps
